import Mathlib

/-!
Verification of the Superset session manager and LLM tool layer
(`utils/superset_auth.py`, `tools/query.py`, `tools/chart.py`).

The Python code is shallowly embedded: Python runtime values that flow out of
`response.json()` are modelled by `PyVal`; statements that can raise are
modelled in `Except PyExc`; the catch-all `try/except` blocks of the source
become total wrapper functions that convert an `Except.error` into the
error-status result the Python handler builds.  The remote service is an
oracle (`NetBehavior`) giving the response of the n-th request to each
endpoint; the manager's mutable fields and request counters are threaded as
explicit state.
-/

namespace Superset

/-- Python values as produced by `response.json()`: JSON null becomes Python
`None`, so `.none` plays both roles. -/
inductive PyVal where
  | none
  | bool (b : Bool)
  | int (n : Int)
  | str (s : String)
  | list (xs : List PyVal)
  | dict (fields : List (String × PyVal))

/-!
String helpers defined over the character list `String.data`, so that every
definition evaluates by kernel reduction (the byte-position-based library
versions do not). -/

/-- Python `s[:n]`. -/
def strTake (s : String) (n : Nat) : String := ⟨s.data.take n⟩

/-- Python `s.upper()`. -/
def strUpper (s : String) : String := ⟨s.data.map Char.toUpper⟩

/-- Python `s.rstrip(chars)`. -/
def strDropRightWhile (s : String) (p : Char → Bool) : String :=
  ⟨(s.data.reverse.dropWhile p).reverse⟩

/-- Occurrence search: does `pat` occur in the list? -/
def subsearch (pat : List Char) : List Char → Bool
  | [] => pat.isEmpty
  | c :: rest => pat.isPrefixOf (c :: rest) || subsearch pat rest

/-- Python `sep.join(strings)`. -/
def strIntercalate (sep : String) (xs : List String) : String :=
  ⟨List.intercalate sep.data (xs.map String.data)⟩

/-- Python truthiness (`bool(v)`): `None`, `False`, `0`, `""`, `[]` and an
empty dict are falsy. -/
def pyTruthy : PyVal → Bool
  | .none => false
  | .bool b => b
  | .int n => n != 0
  | .str s => !s.data.isEmpty
  | .list xs => !xs.isEmpty
  | .dict fs => !fs.isEmpty

/-- Python `v == "lit"` for a string literal: true iff `v` is that string. -/
def isStrEq (v : PyVal) (s : String) : Bool :=
  match v with
  | .str t => t == s
  | _ => false

/-- Python `v is None`. -/
def pyIsNone : PyVal → Bool
  | .none => true
  | _ => false

/-- First binding of a key in a dict's field list (Python dicts have unique
keys, so first = only). -/
def lookupKey : List (String × PyVal) → String → Option PyVal
  | [], _ => Option.none
  | (k, v) :: rest, key => if k = key then some v else lookupKey rest key

/-- Python exceptions that the modelled code can raise.  `connError` is
`requests.exceptions.ConnectionError`, which `authenticate` catches
separately; everything else is carried as its `str(e)` rendering. -/
inductive PyExc where
  | connError
  | err (msg : String)

/-- The `str(e)` used when a caught exception is interpolated into a
message. -/
def excMsg : PyExc → String
  | .connError => "Connection refused"
  | .err m => m

/-- Python `v.get(k)`: `None` default; raises `AttributeError` when `v` is
not a dict. -/
def pyGet (v : PyVal) (k : String) : Except PyExc PyVal :=
  match v with
  | .dict fs => .ok ((lookupKey fs k).getD .none)
  | _ => .error (.err "AttributeError: get")

/-- Python `v.get(k, d)`: the default is used only when the key is absent (a
stored JSON null is returned as `None`, not replaced by `d`). -/
def pyGetD (v : PyVal) (k : String) (d : PyVal) : Except PyExc PyVal :=
  match v with
  | .dict fs => .ok ((lookupKey fs k).getD d)
  | _ => .error (.err "AttributeError: get")

/-- Python `v[k]` on a dict: raises `KeyError` when the key is absent. -/
def pyItem (v : PyVal) (k : String) : Except PyExc PyVal :=
  match v with
  | .dict fs =>
    match lookupKey fs k with
    | some x => .ok x
    | Option.none => .error (.err ("KeyError: " ++ k))
  | _ => .error (.err "TypeError: not subscriptable")

/-- Python `v[0]`. -/
def pyIndex0 : PyVal → Except PyExc PyVal
  | .list (x :: _) => .ok x
  | .list [] => .error (.err "IndexError: list index out of range")
  | .str s =>
    if s.data.isEmpty then .error (.err "IndexError: string index out of range")
    else .ok (.str (String.singleton (s.data.headD 'a')))
  | _ => .error (.err "TypeError: not subscriptable")

/-- Python iteration `for x in v`: lists yield elements, strings yield
characters, dicts yield their keys; other values raise `TypeError`. -/
def pyIter : PyVal → Except PyExc (List PyVal)
  | .list xs => .ok xs
  | .str s => .ok (s.data.map fun c => .str (String.singleton c))
  | .dict fs => .ok (fs.map fun kv => .str kv.1)
  | _ => .error (.err "TypeError: not iterable")

/-- Substring test used for Python's `pat in s` on strings. -/
def containsSubstr (s pat : String) : Bool :=
  pat.data.isEmpty || subsearch pat.data s.data

/-- Python `k in v` for a string `k`: dict key test, list membership by
equality, substring test on strings; raises on non-containers. -/
def pyContains (v : PyVal) (k : String) : Except PyExc Bool :=
  match v with
  | .dict fs => .ok (lookupKey fs k).isSome
  | .list xs => .ok (xs.any fun x => isStrEq x k)
  | .str s => .ok (containsSubstr s k)
  | _ => .error (.err "TypeError: argument not iterable")

/-- Python `str(v)` as interpolated into f-strings.  Scalars are rendered
exactly; the repr of nested containers is abbreviated (no modelled message
ever renders a container). -/
def pyStr : PyVal → String
  | .none => "None"
  | .bool b => if b then "True" else "False"
  | .int n => toString n
  | .str s => s
  | .list _ => "[...]"
  | .dict _ => "\x7b...\x7d"

/-- `str(v) if v is not None else "NULL"` from the row-rendering loops. -/
def pyStrOrNull (v : PyVal) : String :=
  match v with
  | .none => "NULL"
  | v => pyStr v

/-- Checks a Python value list is all strings (`str.join` raises
otherwise). -/
def allStrings : List PyVal → Option (List String)
  | [] => some []
  | .str s :: rest => (allStrings rest).map (s :: ·)
  | _ => Option.none

/-- Python `sep.join(xs)`: raises `TypeError` unless every element is a
string. -/
def pyJoin (sep : String) (xs : List PyVal) : Except PyExc String :=
  match allStrings xs with
  | some strs => .ok (strIntercalate sep strs)
  | Option.none => .error (.err "TypeError: join expects strings")

/-- Python `v[:n]` on sequences. -/
def pySliceTake (n : Nat) : PyVal → Except PyExc PyVal
  | .list xs => .ok (.list (xs.take n))
  | .str s => .ok (.str (strTake s n))
  | _ => .error (.err "TypeError: not subscriptable")

/-- Python `len(v)`. -/
def pyLen : PyVal → Except PyExc Nat
  | .list xs => .ok xs.length
  | .str s => .ok s.data.length
  | .dict fs => .ok fs.length
  | _ => .error (.err "TypeError: no len")

/-- An HTTP response object: status code, raw `.text`, and the outcome of
calling `.json()` on it (which can itself raise). -/
structure HttpResp where
  status_code : Nat
  text : String
  body : Except PyExc PyVal

/-- Outcome of issuing a request: the call itself may raise (connection
refused, timeouts, ...). -/
abbrev HttpResult := Except PyExc HttpResp

/-- The remote service as an oracle: the response to the n-th request sent
to each endpoint (login POST, csrf GET, database-list GET, sqllab execute
POST, sqllab results GET, chart POST). -/
structure NetBehavior where
  login : Nat → HttpResult
  csrf : Nat → HttpResult
  dblist : Nat → HttpResult
  execute : Nat → HttpResult
  results : Nat → HttpResult
  chart : Nat → HttpResult

/-- The payload POSTed to `/api/v1/sqllab/execute/` (superset_auth.py
lines 260-273).  `client_id` / `sql_editor_id` are freshly generated uuids
in the source; the model receives them as parameters. -/
structure ExecPayload where
  client_id : String
  database_id : PyVal
  json : Bool
  runAsync : Bool
  sql : String
  sql_editor_id : String
  tab : String
  tmp_table_name : String
  select_as_cta : Bool
  ctas_method : String
  queryLimit : Int
  expand_data : Bool

/-- `SupersetAuthManager` mutable fields (`__init__`).  `token_expiry` is a
datetime-or-None; time is abstract `Nat` units.  The credentials and the
`requests.Session` cookie jar do not influence any modelled observable. -/
structure AuthState where
  access_token : PyVal := .none
  csrf_token : PyVal := .none
  refresh_token : PyVal := .none
  token_expiry : Option Nat := Option.none
  base_url : String := "http://localhost:8088"

/-- Instrumentation: how many requests were issued to each endpoint, the
execute payloads sent, and how many `time.sleep(1)` calls ran. -/
structure Counters where
  login : Nat := 0
  csrf : Nat := 0
  dblist : Nat := 0
  execute : Nat := 0
  results : Nat := 0
  chart : Nat := 0
  sleeps : Nat := 0
  executeReqs : List ExecPayload := []

/-- Full modelled state. -/
structure S where
  st : AuthState
  c : Counters

def initCounters : Counters := {}

/-- The state of a freshly constructed `SupersetAuthManager`. -/
def initS : S := { st := {}, c := initCounters }

/-- One modelled Python step: either a value or a raised exception, plus the
state after the step (state changes made before a raise persist, exactly as
in Python). -/
abbrev Step (α : Type) := Except PyExc α × S

/-- Sequencing of steps: a raise propagates, keeping the state. -/
def bindE {α β : Type} (x : Step α) (f : α → S → Step β) : Step β :=
  match x with
  | (.ok a, s) => f a s
  | (.error e, s) => (.error e, s)

/-- Lift a pure fallible expression into a step at the current state. -/
def bindP {α β : Type} (e : Except PyExc α) (s : S) (f : α → S → Step β) : Step β :=
  match e with
  | .ok a => f a s
  | .error ex => (.error ex, s)

def doLogin (net : NetBehavior) (s : S) : Step HttpResp :=
  (net.login s.c.login, { s with c := { s.c with login := s.c.login + 1 } })

def doCsrf (net : NetBehavior) (s : S) : Step HttpResp :=
  (net.csrf s.c.csrf, { s with c := { s.c with csrf := s.c.csrf + 1 } })

def doDblist (net : NetBehavior) (s : S) : Step HttpResp :=
  (net.dblist s.c.dblist, { s with c := { s.c with dblist := s.c.dblist + 1 } })

def doExecute (net : NetBehavior) (p : ExecPayload) (s : S) : Step HttpResp :=
  (net.execute s.c.execute,
   { s with c := { s.c with execute := s.c.execute + 1,
                            executeReqs := s.c.executeReqs ++ [p] } })

def doResults (net : NetBehavior) (s : S) : Step HttpResp :=
  (net.results s.c.results, { s with c := { s.c with results := s.c.results + 1 } })

def doChart (net : NetBehavior) (s : S) : Step HttpResp :=
  (net.chart s.c.chart, { s with c := { s.c with chart := s.c.chart + 1 } })

/-! ## SupersetAuthManager (utils/superset_auth.py) -/

/-- `is_authenticated` (lines 39-45): no token → false; expiry recorded and
`datetime.now() >= token_expiry` → false; otherwise true. -/
def is_authenticated (st : AuthState) (now : Nat) : Bool :=
  if !(pyTruthy st.access_token) then false
  else if (match st.token_expiry with
           | some e => decide (e ≤ now)
           | Option.none => false) then false
  else true

/-- The fixed token TTL: `timedelta(minutes=10)` in abstract time units. -/
def tokenTTL : Nat := 10

/-- `self.access_token[:20] + "..." if self.access_token else None`
(line 108): slicing a truthy non-string raises `TypeError`. -/
def tokenPreview (v : PyVal) : Except PyExc (Option String) :=
  if pyTruthy v then
    match v with
    | .str s => .ok (some (strTake s 20 ++ "..."))
    | _ => .error (.err "TypeError: unsupported slice")
  else .ok Option.none

/-- The dict returned by `authenticate` / `refresh_authentication` /
`force_reauthenticate`: key presence is modelled with `Option`. -/
structure AuthResult where
  status : String
  message : String
  access_token : Option String := Option.none
  csrf_token : Option String := Option.none
  expires_at : Option String := Option.none

/-- Step 2 of `authenticate` (lines 92-103): a 200 CSRF response stores its
`result` field; any other status only logs a warning. -/
def csrfStep (csrf_response : HttpResp) (s : S) : Step Unit :=
  if csrf_response.status_code = 200 then
    bindP csrf_response.body s fun csrf_data s =>
    bindP (pyGet csrf_data "result") s fun ctok s =>
    (.ok (), { s with st := { s.st with csrf_token := ctok } })
  else (.ok (), s)

/-- Body of the `try` block of `authenticate` (lines 60-111). -/
def authenticateCore (net : NetBehavior) (now : Nat) (s : S) : Step AuthResult :=
  bindE (doLogin net s) fun login_response s =>
  if login_response.status_code ≠ 200 then
    (.ok { status := "error",
           message := "Login failed with status " ++ toString login_response.status_code
             ++ ": " ++ login_response.text }, s)
  else
  bindP login_response.body s fun login_data s =>
  bindP (pyGet login_data "access_token") s fun atok s =>
  bindP (pyGet login_data "refresh_token") s fun rtok s =>
  let s := { s with st := { s.st with
      access_token := atok
      refresh_token := rtok
      token_expiry := some (now + tokenTTL) } }
  bindE (doCsrf net s) fun csrf_response s =>
  bindE (csrfStep csrf_response s) fun _ s =>
  bindP (tokenPreview s.st.access_token) s fun atPrev s =>
  bindP (tokenPreview s.st.csrf_token) s fun ctPrev s =>
  (.ok { status := "success",
         message := "Successfully authenticated with Superset",
         access_token := atPrev, csrf_token := ctPrev,
         expires_at := s.st.token_expiry.map toString }, s)

/-- `authenticate` (lines 58-120): total; the two `except` clauses convert
raises into error-status results (state changes made before the raise
persist, as in Python). -/
def authenticate (net : NetBehavior) (now : Nat) (s : S) : AuthResult × S :=
  match authenticateCore net now s with
  | (.ok r, s) => (r, s)
  | (.error .connError, s) =>
    ({ status := "error",
       message := "Could not connect to Superset at " ++ s.st.base_url
         ++ ". Please ensure Superset is running." }, s)
  | (.error (.err m), s) =>
    ({ status := "error", message := "Authentication error: " ++ m }, s)

/-- `force_reauthenticate` (lines 132-143): clears the four token fields
(the fresh `requests.Session` has no modelled observable) and
authenticates. -/
def force_reauthenticate (net : NetBehavior) (now : Nat) (s : S) : AuthResult × S :=
  let s := { s with st := { s.st with
      access_token := .none
      csrf_token := .none
      refresh_token := .none
      token_expiry := Option.none } }
  authenticate net now s

/-- The `for db in databases` match loop of `get_database_id`
(lines 204-208): first entry whose `database_name` equals the requested
name, returning its `id`. -/
def findDbLoop (name : String) : List PyVal → Except PyExc (Option PyVal)
  | [] => .ok Option.none
  | db :: rest =>
    match pyGet db "database_name" with
    | .error e => .error e
    | .ok dn =>
      if isStrEq dn name then
        match pyGet db "id" with
        | .error e => .error e
        | .ok idv => .ok (some idv)
      else findDbLoop name rest

/-- Body of the `try` block of `get_database_id` (lines 191-221). -/
def get_database_id_core (net : NetBehavior) (database_name : String) (s : S) : Step PyVal :=
  bindE (doDblist net s) fun response s =>
  if response.status_code = 200 then
    bindP response.body s fun data s =>
    bindP (pyGetD data "result" (.list [])) s fun databases s =>
    bindP (pyIter databases) s fun dbItems s =>
    bindP (findDbLoop database_name dbItems) s fun found s =>
    match found with
    | some idv => (.ok idv, s)
    | Option.none =>
      if pyTruthy databases then
        bindP (pyIndex0 databases) s fun fallback_db s =>
        bindP (pyGet fallback_db "database_name") s fun _ s =>
        bindP (pyGet fallback_db "id") s fun idv s =>
        (.ok idv, s)
      else (.ok .none, s)
  else (.ok .none, s)

/-- The `try` part of `get_database_id`: every raise becomes a `None`
return. -/
def get_database_id_run (net : NetBehavior) (database_name : String) (s : S) : PyVal × S :=
  match get_database_id_core net database_name s with
  | (.ok v, s) => (v, s)
  | (.error _, s) => (.none, s)

/-- `get_database_id` (lines 182-224): authenticates if needed (returning
`None` when that fails), then performs the lookup. -/
def get_database_id (net : NetBehavior) (now : Nat) (database_name : String) (s : S) :
    PyVal × S :=
  if is_authenticated s.st now then get_database_id_run net database_name s
  else
    let ares := authenticate net now s
    let ar := ares.1
    let s := ares.2
    if ar.status == "success" then get_database_id_run net database_name s
    else (.none, s)

/-- The dict `execute_query` returns: key presence modelled with
`Option`. -/
structure QueryResult where
  status : String
  message : Option String := Option.none
  data : Option PyVal := Option.none
  columns : Option PyVal := Option.none
  query : Option PyVal := Option.none

/-- The normalized success result built from a response dict `d`
(lines 310-315 / 326-331):
`{"status": "success", "data": d.get("data", []), "columns":
d.get("columns", []), "query": d.get("query", \x7b\x7d)}`. -/
def successFrom (d : PyVal) (s : S) : Step QueryResult :=
  bindP (pyGetD d "data" (.list [])) s fun dat s =>
  bindP (pyGetD d "columns" (.list [])) s fun cols s =>
  bindP (pyGetD d "query" (.dict [])) s fun q s =>
  (.ok { status := "success", data := some dat, columns := some cols, query := some q }, s)

/-- `d.get("error") or d.get("errors", ["Unknown error"])[0]` (lines 317,
333): the `errors` fallback is evaluated only when `error` is falsy, and
indexing an empty `errors` list raises. -/
def errorMsgFrom (d : PyVal) (s : S) : Step PyVal :=
  bindP (pyGet d "error") s fun ev s =>
  if pyTruthy ev then (.ok ev, s)
  else
    bindP (pyGetD d "errors" (.list [.str "Unknown error"])) s fun es s =>
    bindP (pyIndex0 es) s fun e0 s => (.ok e0, s)

/-- `response.status_code == 202 or result_data.get("status") == "pending"`
(line 288), with Python's short-circuit: the `get` runs only when the code
is not 202. -/
def pendingCheck (response : HttpResp) (result_data : PyVal) (s : S) : Step Bool :=
  if response.status_code = 202 then (.ok true, s)
  else
    bindP (pyGet result_data "status") s fun rstat s =>
    (.ok (isStrEq rstat "pending"), s)

/-- The polling loop of `execute_query` (lines 293-321), with
`max_attempts = 30` as fuel.  Each iteration sleeps one time unit, GETs the
results endpoint, and inspects `status`: "success" and "error" end the
loop, anything else (including non-200 poll responses) continues; running
out of attempts yields the timeout error. -/
def pollLoop (net : NetBehavior) : Nat → S → Step QueryResult
  | 0, s => (.ok { status := "error",
                   message := some "Query timeout - took too long to execute" }, s)
  | fuel + 1, s =>
    let s := { s with c := { s.c with sleeps := s.c.sleeps + 1 } }
    bindE (doResults net s) fun status_response s =>
    if status_response.status_code = 200 then
      bindP status_response.body s fun status_data s =>
      bindP (pyGet status_data "status") s fun query_status s =>
      if isStrEq query_status "success" then successFrom status_data s
      else if isStrEq query_status "error" then
        bindE (errorMsgFrom status_data s) fun em s =>
        (.ok { status := "error", message := some ("Query error: " ++ pyStr em) }, s)
      else pollLoop net fuel s
    else pollLoop net fuel s

/-- `query_id = result_data.get("id") or result_data.get("query",
\x7b\x7d).get("id")` (line 289). -/
def queryIdStep (result_data : PyVal) (s : S) : Step PyVal :=
  bindP (pyGet result_data "id") s fun idv s =>
  if pyTruthy idv then (.ok idv, s)
  else
    bindP (pyGetD result_data "query" (.dict [])) s fun qv s =>
    bindP (pyGet qv "id") s fun qid s => (.ok qid, s)

/-- The single retry after reauthentication (lines 358-367): `some r` when
the retried response is 200/202 with a success-or-data payload, `Option.none`
when the retry failed (both non-2xx codes and unexpected payloads fall
through to the same error return). -/
def retryParse (retry_response : HttpResp) (s : S) : Step (Option QueryResult) :=
  if retry_response.status_code = 200 ∨ retry_response.status_code = 202 then
    bindP retry_response.body s fun result_data s =>
    bindP (pyGet result_data "status") s fun rstat s =>
    bindP (if isStrEq rstat "success" then .ok true else pyContains result_data "data")
      s fun cond s =>
    if cond then
      bindE (successFrom result_data s) fun r s => (.ok (some r), s)
    else (.ok Option.none, s)
  else (.ok Option.none, s)

/-- Body of the `try` block of `execute_query` (lines 254-376). -/
def executeTry (net : NetBehavior) (now : Nat) (payload : ExecPayload) (s : S) :
    Step QueryResult :=
  bindE (doExecute net payload s) fun response s =>
  if response.status_code = 200 ∨ response.status_code = 202 then
    bindP response.body s fun result_data s =>
    bindE (pendingCheck response result_data s) fun isPending s =>
    if isPending then
      bindE (queryIdStep result_data s) fun _query_id s =>
      pollLoop net 30 s
    else
      bindP (pyGet result_data "status") s fun rstat s =>
      bindP (if isStrEq rstat "success" then .ok true else pyContains result_data "data")
        s fun cond s =>
      if cond then successFrom result_data s
      else if isStrEq rstat "error" then
        bindE (errorMsgFrom result_data s) fun em s =>
        (.ok { status := "error", message := some ("Query error: " ++ pyStr em) }, s)
      else
        bindP (pyGetD result_data "data" (.list [])) s fun dat s =>
        bindP (pyGetD result_data "columns" (.list [])) s fun cols s =>
        (.ok { status := "success", data := some dat, columns := some cols,
               query := some result_data }, s)
  else if response.status_code = 401 then
    let fr := force_reauthenticate net now s
    let reauth := fr.1
    let s := fr.2
    if reauth.status = "success" then
      bindE (doExecute net payload s) fun retry_response s =>
      bindE (retryParse retry_response s) fun good s =>
      match good with
      | some r => (.ok r, s)
      | Option.none =>
        (.ok { status := "error",
               message := some ("Query failed after reauthentication: "
                 ++ strTake retry_response.text 500) }, s)
    else
      (.ok { status := "error",
             message := some ("Reauthentication failed: " ++ reauth.message) }, s)
  else
    (.ok { status := "error",
           message := some ("Query execution failed: " ++ strTake response.text 500) }, s)

/-- The payload built at lines 260-273 (constant fields as in the
source). -/
def mkPayload (client_id : String) (dbid : PyVal) (sql : String)
    (sql_editor_id : String) (query_limit : Int) : ExecPayload :=
  { client_id := client_id, database_id := dbid, json := true, runAsync := false,
    sql := sql, sql_editor_id := sql_editor_id, tab := "Query", tmp_table_name := "",
    select_as_cta := false, ctas_method := "TABLE", queryLimit := query_limit,
    expand_data := true }

/-- The `try` block of `execute_query` (lines 254-380) with resolved
database id: the default `query_limit` of 100 is applied (line 251-252),
the payload built, and any raise converted into the "Query execution
error" result by the catch-all `except`. -/
def execute_query_run (net : NetBehavior) (now : Nat) (client_id sql_editor_id : String)
    (sql : String) (dbid : PyVal) (query_limit : Option Int) (s : S) : QueryResult × S :=
  let payload := mkPayload client_id dbid sql sql_editor_id (query_limit.getD 100)
  match executeTry net now payload s with
  | (.ok r, s) => (r, s)
  | (.error e, s) =>
    ({ status := "error", message := some ("Query execution error: " ++ excMsg e) }, s)

/-- Lines 244-248 of `execute_query`: resolve `database_id` by name when it
was not passed, failing with the descriptive error when the lookup returns
`None`. -/
def execute_query_postAuth (net : NetBehavior) (now : Nat) (client_id sql_editor_id : String)
    (sql : String) (database_id : PyVal) (database_name : String)
    (query_limit : Option Int) (s : S) : QueryResult × S :=
  if pyIsNone database_id then
    let dres := get_database_id net now database_name s
    let d := dres.1
    let s := dres.2
    if pyIsNone d then
      ({ status := "error",
         message := some ("Could not find database: " ++ database_name) }, s)
    else execute_query_run net now client_id sql_editor_id sql d query_limit s
  else execute_query_run net now client_id sql_editor_id sql database_id query_limit s

/-- `execute_query` (lines 226-380).  `database_id = None` triggers lookup
by name; `query_limit = None` defaults to 100; the catch-all `except`
converts any raise inside the `try` into the "Query execution error"
result.  `client_id` / `sql_editor_id` stand for the generated uuids. -/
def execute_query (net : NetBehavior) (now : Nat) (client_id sql_editor_id : String)
    (sql : String) (database_id : PyVal) (database_name : String)
    (query_limit : Option Int) (s : S) : QueryResult × S :=
  if is_authenticated s.st now then
    execute_query_postAuth net now client_id sql_editor_id sql database_id database_name
      query_limit s
  else
    let ares := authenticate net now s
    let ar := ares.1
    let s := ares.2
    if ar.status = "success" then
      execute_query_postAuth net now client_id sql_editor_id sql database_id database_name
        query_limit s
    else ({ status := "error", message := some ar.message }, s)

/-! ## Tool functions (tools/query.py) -/

/-- Python `s.rstrip()`. -/
def rstripWs (s : String) : String := strDropRightWhile s Char.isWhitespace

/-- Python `s.rstrip(';')`. -/
def rstripSemi (s : String) : String := strDropRightWhile s (fun c => c == ';')

/-- Lines 24-29 of `execute_sql_query`: `'LIMIT' in query.upper()` — a
case-insensitive substring check; when it misses and `limit` is truthy, a
LIMIT clause is appended to the query stripped of trailing whitespace and
semicolons. -/
def autoLimit (query : String) (limit : Int) : String :=
  if !(containsSubstr (strUpper query) "LIMIT") && limit != 0 then
    rstripSemi (rstripWs query) ++ " LIMIT " ++ toString limit
  else query

/-- The comprehension at line 57: `col.get("column_name", col.get("name",
f"col_\x7bi\x7d"))` for each column, the inner default evaluated
eagerly. -/
def colNamesLoop (i : Nat) : List PyVal → Except PyExc (List PyVal)
  | [] => .ok []
  | col :: rest =>
    match pyGetD col "name" (.str ("col_" ++ toString i)) with
    | .error e => .error e
    | .ok inner =>
      match pyGetD col "column_name" inner with
      | .error e => .error e
      | .ok nm =>
        match colNamesLoop (i + 1) rest with
        | .error e => .error e
        | .ok tailNames => .ok (nm :: tailNames)

/-- Lines 55-62: column names from `columns`, falling back to the first
row's dict keys when `columns` is falsy. -/
def extractColumnNames (columns data : PyVal) : Except PyExc (List PyVal) :=
  if pyTruthy columns then
    match pyIter columns with
    | .error e => .error e
    | .ok cols => colNamesLoop 0 cols
  else if pyTruthy data then
    match pyIndex0 data with
    | .error e => .error e
    | .ok row0 =>
      match row0 with
      | .dict fs => .ok (fs.map fun kv => .str kv.1)
      | _ => .error (.err "AttributeError: keys")
  else .ok []

/-- Cells of one dict row (lines 76-79): `str(row.get(col, "NULL"))`, with
`None` printed as `NULL`; a non-string column name misses every
(string-keyed) JSON dict, giving the `"NULL"` default, and an unhashable
one raises. -/
def rowCellsLoop (fs : List (String × PyVal)) : List PyVal → Except PyExc (List String)
  | [] => .ok []
  | col :: rest =>
    match ((match col with
            | .str k => .ok (pyStrOrNull ((lookupKey fs k).getD (.str "NULL")))
            | .list _ => .error (.err "TypeError: unhashable type")
            | .dict _ => .error (.err "TypeError: unhashable type")
            | _ => .ok "NULL") : Except PyExc String) with
    | .error e => .error e
    | .ok v =>
      match rowCellsLoop fs rest with
      | .error e => .error e
      | .ok vs => .ok (v :: vs)

/-- One rendered data row (lines 73-82): dict rows by column name, other
rows iterated positionally. -/
def rowValues (column_names : List PyVal) (row : PyVal) : Except PyExc (List String) :=
  match row with
  | .dict fs => rowCellsLoop fs column_names
  | _ =>
    match pyIter row with
    | .error e => .error e
    | .ok vals => .ok (vals.map pyStrOrNull)

/-- The row loop (lines 73-84): each row joined with `" | "` plus a
newline. -/
def rowsBlock (column_names : List PyVal) : List PyVal → Except PyExc String
  | [] => .ok ""
  | row :: rest =>
    match rowValues column_names row with
    | .error e => .error e
    | .ok vals =>
      match rowsBlock column_names rest with
      | .error e => .error e
      | .ok restStr => .ok (strIntercalate " | " vals ++ "\n" ++ restStr)

/-- Result formatting of `execute_sql_query` (lines 51-94): a pseudo-table
whose display is capped at `data[:10]`, an `... and N more rows` suffix
when more than 10 rows came back, and a trailing `Total rows:` line. -/
def formatSqlResult (query : String) (data columns : PyVal) : Except PyExc String :=
  if !(pyTruthy data) then
    .ok ("Query executed successfully. No results found.\nQuery: " ++ query)
  else
    match extractColumnNames columns data with
    | .error e => .error e
    | .ok column_names =>
      let base := "Query: " ++ query ++ "\n\n"
      if column_names.isEmpty then
        match pySliceTake 10 data with
        | .error e => .error e
        | .ok sliced =>
          match pyLen data with
          | .error e => .error e
          | .ok n =>
            .ok (base ++ pyStr sliced
              ++ (if 10 < n then "\n... and " ++ toString (n - 10) ++ " more rows" else "")
              ++ "\n\nTotal rows: " ++ toString n)
      else
        match pyJoin " | " column_names with
        | .error e => .error e
        | .ok header =>
          match pySliceTake 10 data with
          | .error e => .error e
          | .ok sliced =>
            match pyIter sliced with
            | .error e => .error e
            | .ok rows10 =>
              match rowsBlock column_names rows10 with
              | .error e => .error e
              | .ok rblock =>
                match pyLen data with
                | .error e => .error e
                | .ok n =>
                  .ok (base ++ header ++ "\n"
                    ++ String.mk (List.replicate header.data.length '-') ++ "\n"
                    ++ rblock
                    ++ (if 10 < n then "\n... and " ++ toString (n - 10) ++ " more rows" else "")
                    ++ "\n\nTotal rows: " ++ toString n)

/-- `execute_sql_query` (tools/query.py lines 7-104): appends the LIMIT
clause when the substring check misses, runs the query through the session
manager, formats the result; the catch-all `except` turns any raise into
the "Error executing query" message.  (`result['message']` is modelled by
the `message` field, present on every error result `execute_query`
builds.) -/
def execute_sql_query (net : NetBehavior) (now : Nat) (client_id sql_editor_id : String)
    (query : String) (database : String) (limit : Int) (s : S) : String × S :=
  let query := autoLimit query limit
  let res := execute_query net now client_id sql_editor_id query .none database (some limit) s
  let r := res.1
  let s := res.2
  if r.status = "error" then
    ("Error executing query: " ++ r.message.getD "" ++ "\nQuery: " ++ query, s)
  else
    match formatSqlResult query (r.data.getD (.list [])) (r.columns.getD (.list [])) with
    | .ok out => (out, s)
    | .error e => ("Error executing query: " ++ excMsg e ++ "\nQuery: " ++ query, s)

/-- Result formatting of `execute_aggregation_query` (lines 268-306): the
same pseudo-table but every row is displayed — no 10-row cap and no
"more rows" suffix — with a `**Total result rows:**` trailing line. -/
def formatAggResult (query : String) (data columns : PyVal) : Except PyExc String :=
  if !(pyTruthy data) then
    .ok ("Aggregation query executed successfully. No results found.\nQuery: " ++ query)
  else
    match extractColumnNames columns data with
    | .error e => .error e
    | .ok column_names =>
      let base := "=== Aggregation Results ===\n" ++ "Query: " ++ query ++ "\n\n"
      if column_names.isEmpty then
        match pyLen data with
        | .error e => .error e
        | .ok n => .ok (base ++ pyStr data ++ "\n**Total result rows:** " ++ toString n)
      else
        match pyJoin " | " column_names with
        | .error e => .error e
        | .ok header =>
          match pyIter data with
          | .error e => .error e
          | .ok rows =>
            match rowsBlock column_names rows with
            | .error e => .error e
            | .ok rblock =>
              match pyLen data with
              | .error e => .error e
              | .ok n =>
                .ok (base ++ header ++ "\n"
                  ++ String.mk (List.replicate header.data.length '-') ++ "\n"
                  ++ rblock ++ "\n**Total result rows:** " ++ toString n)

/-- `execute_aggregation_query` (lines 227-316): the aggregation-keyword
heuristic only logs, the query is passed through unmodified (no LIMIT
appending) with `query_limit=100`. -/
def execute_aggregation_query (net : NetBehavior) (now : Nat)
    (client_id sql_editor_id : String) (query : String) (database : String) (s : S) :
    String × S :=
  let res := execute_query net now client_id sql_editor_id query .none database (some 100) s
  let r := res.1
  let s := res.2
  if r.status = "error" then
    ("Error executing aggregation query: " ++ r.message.getD "" ++ "\nQuery: " ++ query, s)
  else
    match formatAggResult query (r.data.getD (.list [])) (r.columns.getD (.list [])) with
    | .ok out => (out, s)
    | .error e => ("Error executing aggregation query: " ++ excMsg e ++ "\nQuery: " ++ query, s)

/-! ## Chart tool (tools/chart.py) -/

/-- The `adhoc_filters` loop (lines 61-69): only safe `.get` calls, raising
just when a filter element is not a dict. -/
def adhocFiltersLoop : List PyVal → Except PyExc Unit
  | [] => .ok ()
  | f :: rest =>
    match pyGetD f "column" (.str "") with
    | .error e => .error e
    | .ok _ =>
      match pyGetD f "operator" (.str "=") with
      | .error e => .error e
      | .ok _ =>
        match pyGetD f "value" (.str "") with
        | .error e => .error e
        | .ok _ => adhocFiltersLoop rest

/-- The `query_context` comprehension (line 128): `f["column"]` and
`f["value"]` are subscripts that raise `KeyError` when the key is
missing. -/
def queryContextFiltersLoop : List PyVal → Except PyExc Unit
  | [] => .ok ()
  | f :: rest =>
    match pyItem f "column" with
    | .error e => .error e
    | .ok _ =>
      match pyGetD f "operator" (.str "=") with
      | .error e => .error e
      | .ok _ =>
        match pyItem f "value" with
        | .error e => .error e
        | .ok _ => queryContextFiltersLoop rest

/-- The filter processing of `create_superset_chart` that runs before its
`try` block (lines 60-78 and 123-144): a raise here escapes the tool. -/
def chartFilterChecks (filters : PyVal) : Except PyExc Unit :=
  match ((if pyTruthy filters then
            match pyIter filters with
            | .error e => .error e
            | .ok fs => adhocFiltersLoop fs
          else .ok ()) : Except PyExc Unit) with
  | .error e => .error e
  | .ok _ =>
    match pyIter (if pyTruthy filters then filters else .list []) with
    | .error e => .error e
    | .ok fs2 => queryContextFiltersLoop fs2

/-- `create_superset_chart` (tools/chart.py lines 11-190).  The `Except` in
the result is the tool's outcome: `.error` means an exception escaped the
tool (possible, because the payload assembly precedes the `try` block),
`.ok` the returned text.  `genName` stands for the timestamp-generated
default chart name; `datasource_id`, `metric` and `dimensions` only flow
into the unmodelled POST body. -/
def create_superset_chart (net : NetBehavior) (now : Nat) (genName : String)
    (chart_type : String) (chart_name : PyVal) (filters : PyVal) (s : S) :
    Except PyExc String × S :=
  if !(is_authenticated s.st now) then
    (.ok "Error: Not authenticated with Superset. Please run authenticate_superset first.", s)
  else
    let chartName := if pyTruthy chart_name then pyStr chart_name else genName
    match chartFilterChecks filters with
    | .error e => (.error e, s)
    | .ok _ =>
      match (bindE (doChart net s) fun response s =>
        if response.status_code = 201 then
          bindP response.body s fun response_data s =>
          bindP (pyContains response_data "result") s fun hasResult s =>
          bindE (if hasResult then
                   bindP (pyItem response_data "result") s fun chart_data s =>
                   bindP (pyGet chart_data "id") s fun dflt s =>
                   bindP (pyGetD response_data "id" dflt) s fun cid s => (.ok cid, s)
                 else
                   bindP (pyGet response_data "id") s fun cid s =>
                   (.ok cid, s)) fun chart_id s =>
          (.ok ("Chart created successfully!\n- Chart Name: " ++ chartName
            ++ "\n- Chart Type: " ++ chart_type
            ++ "\n- Chart ID: " ++ pyStr chart_id
            ++ "\n- View URL: " ++ s.st.base_url ++ "/explore/?slice_id=" ++ pyStr chart_id
            ++ "\n- Edit URL: " ++ s.st.base_url ++ "/chart/edit/" ++ pyStr chart_id), s)
        else
          (.ok ("Failed to create chart: " ++ toString response.status_code
            ++ " - " ++ response.text), s)) with
      | (.ok out, s) => (.ok out, s)
      | (.error e, s) => (.ok ("Error creating chart: " ++ excMsg e), s)

/-! ## Spec-side definitions -/

/-- Word splitting for the spec-side keyword test. -/
def wordSplit (p : Char → Bool) : List Char → List (List Char)
  | [] => [[]]
  | c :: rest =>
    let r := wordSplit p rest
    if p c then [] :: r
    else (c :: r.headD []) :: r.tail

/-- Modelled from the spec: the claim's notion "the keyword LIMIT in any
case variation" — `LIMIT` appearing as a whole word (maximal
alphanumeric/underscore run) of the query, case-insensitively.  The code
under test instead uses the plain substring check `autoLimit` embeds. -/
def hasLimitKeyword (q : String) : Bool :=
  (wordSplit (fun c => !(c.isAlphanum || c == '_')) (strUpper q).data).any
    (fun w => w == "LIMIT".data)

/-! ## Step postconditions -/

/-- Postcondition of a step: holds of the produced value and state whenever
the step does not raise. -/
def StepPost {α : Type} (P : α → S → Prop) (x : Step α) : Prop :=
  ∀ a s', x = (.ok a, s') → P a s'

theorem stepPost_bindE {α β : Type} {P : β → S → Prop} (x : Step α)
    (f : α → S → Step β) (hf : ∀ a s, StepPost P (f a s)) :
    StepPost P (bindE x f) := by
  obtain ⟨ex, s⟩ := x
  cases ex with
  | ok a => exact hf a s
  | error e => intro b s' h; simp [bindE] at h

theorem stepPost_bindP {α β : Type} {P : β → S → Prop} (e : Except PyExc α) (s : S)
    (f : α → S → Step β) (hf : ∀ a s, StepPost P (f a s)) :
    StepPost P (bindP e s f) := by
  cases e with
  | ok a => exact hf a s
  | error ex => intro b s' h; simp [bindP] at h

theorem stepPost_ok {α : Type} {P : α → S → Prop} {a : α} {s : S} (h : P a s) :
    StepPost P ((.ok a, s) : Step α) := by
  intro b s' hb
  simp only [Prod.mk.injEq, Except.ok.injEq] at hb
  obtain ⟨rfl, rfl⟩ := hb
  exact h

theorem stepPost_error {α : Type} {P : α → S → Prop} {e : PyExc} {s : S} :
    StepPost P ((.error e, s) : Step α) := by
  intro b s' hb
  simp at hb

theorem isStrEq_true_iff (v : PyVal) (n : String) : isStrEq v n = true ↔ v = .str n := by
  cases v <;> simp [isStrEq]

theorem bindE_ok {α β : Type} (a : α) (s : S) (f : α → S → Step β) :
    bindE (.ok a, s) f = f a s := rfl

theorem bindE_err {α β : Type} (e : PyExc) (s : S) (f : α → S → Step β) :
    bindE (.error e, s) f = (.error e, s) := rfl

theorem bindP_ok {α β : Type} (a : α) (s : S) (f : α → S → Step β) :
    bindP (.ok a) s f = f a s := rfl

theorem bindP_err {α β : Type} (e : PyExc) (s : S) (f : α → S → Step β) :
    bindP (.error e) s f = (.error e, s) := rfl

/-- When the continuation preserves the state, so does `bindE`. -/
theorem bindE_snd {α β : Type} (x : Step α) (f : α → S → Step β)
    (hf : ∀ a s, ((f a s).2) = s) : (bindE x f).2 = x.2 := by
  rcases x with ⟨ex, sx⟩
  cases ex <;> simp [bindE, hf]

/-! ## Claims -/

/-- C9: when an access token is set (truthy) but no expiry is recorded,
`is_authenticated` returns true — the expiry comparison only runs when an
expiry value is present, so such a token counts as valid indefinitely. -/
theorem C9_no_expiry_token_is_valid (st : AuthState) (now : Nat)
    (h1 : pyTruthy st.access_token = true) (h2 : st.token_expiry = Option.none) :
    is_authenticated st now = true := by
  simp [is_authenticated, h1, h2]

theorem C9_no_expiry_token_is_valid_witness :
    pyTruthy (AuthState.access_token { access_token := .str "tok" }) = true ∧
    AuthState.token_expiry { access_token := .str "tok" } = Option.none ∧
    is_authenticated { access_token := .str "tok" } 999 = true :=
  ⟨by decide, rfl, C9_no_expiry_token_is_valid { access_token := .str "tok" } 999 (by decide) rfl⟩

theorem successFrom_state (d : PyVal) (s : S) : (successFrom d s).2 = s := by
  cases d <;> simp [successFrom, pyGetD, bindP]

theorem errorMsgFrom_state (d : PyVal) (s : S) : (errorMsgFrom d s).2 = s := by
  cases d with
  | dict fs =>
    simp only [errorMsgFrom, pyGet, pyGetD, bindP_ok]
    split
    · rfl
    · rcases hI : pyIndex0 ((lookupKey fs "errors").getD (.list [.str "Unknown error"]))
        with e | v <;> simp [hI, bindP]
  | _ => simp [errorMsgFrom, pyGet, bindP]

theorem pendingCheck_state (resp : HttpResp) (d : PyVal) (s : S) :
    (pendingCheck resp d s).2 = s := by
  unfold pendingCheck
  split
  · rfl
  · cases d <;> simp [pyGet, bindP]

theorem queryIdStep_state (d : PyVal) (s : S) : (queryIdStep d s).2 = s := by
  cases d with
  | dict fs =>
    simp only [queryIdStep, pyGet, pyGetD, bindP_ok]
    split
    · rfl
    · cases hQ : (lookupKey fs "query").getD (.dict []) <;> simp [hQ, pyGet, bindP]
  | _ => simp [queryIdStep, pyGet, bindP]

theorem retryParse_state (resp : HttpResp) (s : S) : (retryParse resp s).2 = s := by
  unfold retryParse
  split
  · rcases hB : resp.body with e | d <;> simp only [hB, bindP_ok, bindP_err]
    rcases hG : pyGet d "status" with e | rstat <;> simp only [hG, bindP_ok, bindP_err]
    rcases hC : (if isStrEq rstat "success" then Except.ok true else pyContains d "data")
      with e | cond <;> simp only [hC, bindP_ok, bindP_err]
    split
    · rw [bindE_snd _ _ (fun a s => rfl), successFrom_state]
    · rfl
  · rfl

/-- The polling loop issues no execute request: the request log is
untouched. -/
theorem pollLoop_reqs (net : NetBehavior) :
    ∀ (fuel : Nat) (s : S), ((pollLoop net fuel s).2).c.executeReqs = s.c.executeReqs := by
  intro fuel
  induction fuel with
  | zero => intro s; rfl
  | succ n ih =>
    intro s
    unfold pollLoop
    rcases hR : net.results s.c.results with e | resp <;>
      simp only [doResults, hR, bindE_ok, bindE_err]
    split
    · rcases hB : resp.body with e | d <;> simp only [hB, bindP_ok, bindP_err]
      rcases hG : pyGet d "status" with e | qs <;> simp only [hG, bindP_ok, bindP_err]
      split
      · rw [successFrom_state]
      split
      · rw [bindE_snd _ _ (fun a s => rfl), errorMsgFrom_state]
      · exact ih _
    · exact ih _

theorem csrfStep_reqs (cresp : HttpResp) (s2 : S) :
    ((csrfStep cresp s2).2).c.executeReqs = s2.c.executeReqs := by
  unfold csrfStep
  split
  · rcases hCB : cresp.body with e | cd <;> simp only [hCB, bindP_ok, bindP_err]
    rcases hCR : pyGet cd "result" with e | ct <;> simp only [hCR, bindP_ok, bindP_err]
  · rfl

/-- The tail of `authenticateCore` after the CSRF request: preserves the
request log. -/
theorem authTail_reqs (cresp : HttpResp) (s5 : S) :
    ((bindE (csrfStep cresp s5) fun _ s =>
      bindP (tokenPreview s.st.access_token) s fun atPrev s =>
      bindP (tokenPreview s.st.csrf_token) s fun ctPrev s =>
      ((Except.ok { status := "success",
                    message := "Successfully authenticated with Superset",
                    access_token := atPrev, csrf_token := ctPrev,
                    expires_at := s.st.token_expiry.map toString } : Except PyExc AuthResult),
        s)).2).c.executeReqs = s5.c.executeReqs := by
  have h6 := csrfStep_reqs cresp s5
  rcases hS : csrfStep cresp s5 with ⟨ex, s6⟩
  rw [hS] at h6
  cases ex <;> simp only [bindE_ok, bindE_err]
  · exact h6
  rcases hP1 : tokenPreview s6.st.access_token with e | p1 <;>
    simp only [hP1, bindP_ok, bindP_err]
  · exact h6
  rcases hP2 : tokenPreview s6.st.csrf_token with e | p2 <;>
    simp only [hP2, bindP_ok, bindP_err]
  · exact h6
  exact h6

theorem authenticateCore_reqs (net : NetBehavior) (now : Nat) (s : S) :
    ((authenticateCore net now s).2).c.executeReqs = s.c.executeReqs := by
  unfold authenticateCore
  rcases hL : net.login s.c.login with e | resp <;>
    simp only [doLogin, hL, bindE_ok, bindE_err]
  split
  · rfl
  rcases hB : resp.body with e | ld <;> simp only [hB, bindP_ok, bindP_err]
  rcases hA : pyGet ld "access_token" with e | atok <;> simp only [hA, bindP_ok, bindP_err]
  rcases hR : pyGet ld "refresh_token" with e | rtok <;> simp only [hR, bindP_ok, bindP_err]
  rcases hC : net.csrf s.c.csrf with e | cresp <;> simp only [doCsrf, hC, bindE_ok, bindE_err]
  rw [authTail_reqs cresp _]

/-- `authenticate` issues no execute request. -/
theorem authenticate_reqs (net : NetBehavior) (now : Nat) (s : S) :
    ((authenticate net now s).2).c.executeReqs = s.c.executeReqs := by
  unfold authenticate
  have h := authenticateCore_reqs net now s
  rcases hC : authenticateCore net now s with ⟨ex, s2⟩
  rw [hC] at h
  cases ex with
  | ok r => exact h
  | error e => cases e <;> exact h

theorem force_reauthenticate_reqs (net : NetBehavior) (now : Nat) (s : S) :
    ((force_reauthenticate net now s).2).c.executeReqs = s.c.executeReqs := by
  unfold force_reauthenticate
  exact authenticate_reqs net now _

theorem get_database_id_core_reqs (net : NetBehavior) (name : String) (s : S) :
    ((get_database_id_core net name s).2).c.executeReqs = s.c.executeReqs := by
  unfold get_database_id_core
  rcases hD : net.dblist s.c.dblist with e | resp <;>
    simp only [doDblist, hD, bindE_ok, bindE_err]
  split
  · rcases hB : resp.body with e | d <;> simp only [hB, bindP_ok, bindP_err]
    rcases hG : pyGetD d "result" (.list []) with e | dbs <;> simp only [hG, bindP_ok, bindP_err]
    rcases hI : pyIter dbs with e | items <;> simp only [hI, bindP_ok, bindP_err]
    rcases hF : findDbLoop name items with e | (- | idv) <;>
      simp only [hF, bindP_ok, bindP_err]
    split
    · rcases hX : pyIndex0 dbs with e | fb <;> simp only [hX, bindP_ok, bindP_err]
      rcases hN : pyGet fb "database_name" with e | nm <;> simp only [hN, bindP_ok, bindP_err]
      rcases hId : pyGet fb "id" with e | idv2 <;> simp only [hId, bindP_ok, bindP_err]
    · rfl
  · rfl

theorem get_database_id_run_reqs (net : NetBehavior) (name : String) (s : S) :
    ((get_database_id_run net name s).2).c.executeReqs = s.c.executeReqs := by
  unfold get_database_id_run
  have h2 := get_database_id_core_reqs net name s
  rcases hCo : get_database_id_core net name s with ⟨ex, s2⟩
  rw [hCo] at h2
  cases ex <;> exact h2

/-- `get_database_id` issues no execute request. -/
theorem get_database_id_reqs (net : NetBehavior) (now : Nat) (name : String) (s : S) :
    ((get_database_id net now name s).2).c.executeReqs = s.c.executeReqs := by
  unfold get_database_id
  cases hA : is_authenticated s.st now <;>
    simp only [hA, if_true, if_false, Bool.false_eq_true, reduceIte]
  · have h1 := authenticate_reqs net now s
    cases hSt : ((authenticate net now s).1.status == "success") <;>
      simp only [hSt, if_true, if_false, Bool.false_eq_true, reduceIte]
    · exact h1
    · rw [get_database_id_run_reqs]
      exact h1
  · exact get_database_id_run_reqs net name s

/-- Helper: after a login response of 200 with a dict JSON body, a run of
`authenticate` records `token_expiry = now + tokenTTL` in the resulting
state, whatever happens in the CSRF step afterwards. -/
theorem authenticate_records_expiry (net : NetBehavior) (now : Nat) (s : S) (lt : String)
    (lfs : List (String × PyVal)) (r : AuthResult) (s' : S)
    (hL : net.login s.c.login = .ok ⟨200, lt, .ok (.dict lfs)⟩)
    (hRun : authenticate net now s = (r, s')) :
    s'.st.token_expiry = some (now + tokenTTL) := by
  unfold authenticate authenticateCore at hRun
  simp only [doLogin, bindE, hL, bindP, pyGet] at hRun
  norm_num at hRun
  rcases hC : net.csrf s.c.csrf with e | cresp <;>
    simp only [doCsrf, hC, csrfStep, bindE] at hRun
  · cases e <;> simp only [Prod.mk.injEq] at hRun <;>
      obtain ⟨rfl, rfl⟩ := hRun <;> rfl
  obtain ⟨ccode, ctext, cbody⟩ := cresp
  by_cases h200 : ccode = 200 <;>
    simp only [h200, if_true, if_false, reduceIte] at hRun
  · rcases cbody with e | csrf_data <;> simp only [bindP] at hRun
    · cases e <;> simp only [Prod.mk.injEq] at hRun <;>
        obtain ⟨rfl, rfl⟩ := hRun <;> rfl
    rcases hCR : pyGet csrf_data "result" with e | ctok <;>
      simp only [hCR, bindP] at hRun
    · cases e <;> simp only [Prod.mk.injEq] at hRun <;>
        obtain ⟨rfl, rfl⟩ := hRun <;> rfl
    rcases hP1 : tokenPreview ((lookupKey lfs "access_token").getD .none) with e | p1 <;>
      simp only [hP1, bindP] at hRun
    · cases e <;> simp only [Prod.mk.injEq] at hRun <;>
        obtain ⟨rfl, rfl⟩ := hRun <;> rfl
    rcases hP2 : tokenPreview ctok with e | p2 <;> simp only [hP2, bindP] at hRun
    · cases e <;> simp only [Prod.mk.injEq] at hRun <;>
        obtain ⟨rfl, rfl⟩ := hRun <;> rfl
    simp only [Prod.mk.injEq, Except.ok.injEq] at hRun
    obtain ⟨rfl, rfl⟩ := hRun
    rfl
  · rcases hP1 : tokenPreview ((lookupKey lfs "access_token").getD .none) with e | p1 <;>
      simp only [hP1, bindP] at hRun
    · cases e <;> simp only [Prod.mk.injEq] at hRun <;>
        obtain ⟨rfl, rfl⟩ := hRun <;> rfl
    rcases hP2 : tokenPreview s.st.csrf_token with e | p2 <;>
      simp only [hP2, bindP] at hRun
    · cases e <;> simp only [Prod.mk.injEq] at hRun <;>
        obtain ⟨rfl, rfl⟩ := hRun <;> rfl
    simp only [Prod.mk.injEq, Except.ok.injEq] at hRun
    obtain ⟨rfl, rfl⟩ := hRun
    rfl

/-- C6: `is_authenticated` is a pure predicate of the session state and the
clock — the Lean embedding takes only those and issues no oracle request —
returning false when no access token is set (in particular immediately
after construction, `initS`), false when the current time is at or past the
recorded expiry (in particular the `now + tokenTTL` expiry a successful
`authenticate` records), and true otherwise. -/
theorem C6_is_authenticated_predicate
    (now now2 nowA : Nat) (st1 st2 st3 : AuthState) (e1 : Nat)
    (net : NetBehavior) (s : S) (lt : String) (lfs : List (String × PyVal))
    (r : AuthResult) (s' : S)
    (h1a : st1.token_expiry = some e1) (h1b : e1 ≤ now)
    (h2 : pyTruthy st2.access_token = false)
    (h3a : pyTruthy st3.access_token = true)
    (h3b : ∀ e, st3.token_expiry = some e → now < e)
    (hL : net.login s.c.login = .ok ⟨200, lt, .ok (.dict lfs)⟩)
    (hRun : authenticate net nowA s = (r, s'))
    (hOk : r.status = "success")
    (h4 : nowA + tokenTTL ≤ now2) :
    is_authenticated initS.st now = false ∧
    is_authenticated st1 now = false ∧
    is_authenticated st2 now = false ∧
    is_authenticated st3 now = true ∧
    s'.st.token_expiry = some (nowA + tokenTTL) ∧
    is_authenticated s'.st now2 = false := by
  have hexp := authenticate_records_expiry net nowA s lt lfs r s' hL hRun
  refine ⟨rfl, ?_, ?_, ?_, hexp, ?_⟩
  · cases hT : pyTruthy st1.access_token <;>
      simp [is_authenticated, hT, h1a, h1b]
  · simp [is_authenticated, h2]
  · cases hE : st3.token_expiry with
    | none => simp [is_authenticated, h3a, hE]
    | some e => simp [is_authenticated, h3a, hE, Nat.not_le.2 (h3b e hE)]
  · cases hT : pyTruthy s'.st.access_token <;>
      simp [is_authenticated, hT, hexp, h4]

/-- Fixture: a remote service whose login and CSRF endpoints always
succeed. -/
def wNetAuthOk : NetBehavior :=
  { login := fun _ => .ok ⟨200, "", .ok (.dict [("access_token", .str "tok"),
      ("refresh_token", .str "ref")])⟩
    csrf := fun _ => .ok ⟨200, "", .ok (.dict [("result", .str "csrfTok")])⟩
    dblist := fun _ => .error .connError
    execute := fun _ => .error .connError
    results := fun _ => .error .connError
    chart := fun _ => .error .connError }

theorem C6_is_authenticated_predicate_witness :
    is_authenticated initS.st 7 = false ∧
    is_authenticated { access_token := .str "t", token_expiry := some 7 } 7 = false ∧
    is_authenticated ({} : AuthState) 7 = false ∧
    is_authenticated { access_token := .str "t", token_expiry := some 100 } 7 = true ∧
    (authenticate wNetAuthOk 0 initS).2.st.token_expiry = some (0 + tokenTTL) ∧
    is_authenticated (authenticate wNetAuthOk 0 initS).2.st 10 = false := by
  have h := C6_is_authenticated_predicate 7 10 0
    { access_token := .str "t", token_expiry := some 7 } ({} : AuthState)
    { access_token := .str "t", token_expiry := some 100 } 7
    wNetAuthOk initS "" [("access_token", .str "tok"), ("refresh_token", .str "ref")]
    (authenticate wNetAuthOk 0 initS).1 (authenticate wNetAuthOk 0 initS).2
    rfl (by decide) (by decide) (by decide)
    (by intro e he; cases he; decide)
    rfl rfl (by decide) (by decide)
  exact ⟨h.1, h.2.1, h.2.2.1, h.2.2.2.1, h.2.2.2.2.1, h.2.2.2.2.2⟩

/-- Helper: when no list entry's `database_name` equals the requested name,
the match loop of `get_database_id` finds nothing. -/
theorem findDbLoop_nomatch (name : String) :
    ∀ dbs : List PyVal,
      (∀ db ∈ dbs, ∃ fs, db = .dict fs ∧ lookupKey fs "database_name" ≠ some (.str name)) →
      findDbLoop name dbs = .ok Option.none := by
  intro dbs
  induction dbs with
  | nil => intro _; rfl
  | cons db rest ih =>
    intro h
    obtain ⟨fs, rfl, hne⟩ := h db (List.mem_cons_self db rest)
    have hF : isStrEq ((lookupKey fs "database_name").getD .none) name = false := by
      cases hLK : lookupKey fs "database_name" with
      | none => simp [isStrEq]
      | some v =>
        cases v with
        | str t =>
          simp only [Option.getD_some, isStrEq, beq_eq_false_iff_ne, ne_eq]
          intro ht
          exact hne (by rw [hLK, ht])
        | _ => simp [isStrEq]
    simp only [findDbLoop, pyGet, hF, Bool.false_eq_true, if_false]
    exact ih (fun db hdb => h db (by simp [hdb]))

/-- C5: when the fetched database list has entries but none whose
`database_name` is a (case-sensitive) exact match, `get_database_id`
returns the first entry's id — not an error; and with an empty fetched
list it returns `None`. -/
theorem C5_get_database_id_fallback
    (net netE : NetBehavior) (now : Nat) (name : String) (st0 : AuthState)
    (t t2 : String) (dbs : List PyVal) (fs0 : List (String × PyVal))
    (rest : List PyVal) (idv : PyVal)
    (hAuth : is_authenticated st0 now = true)
    (hNet : net.dblist 0 = .ok ⟨200, t, .ok (.dict [("result", .list dbs)])⟩)
    (hWf : ∀ db ∈ dbs, ∃ fs, db = .dict fs ∧ lookupKey fs "database_name" ≠ some (.str name))
    (hCons : dbs = PyVal.dict fs0 :: rest)
    (hId : lookupKey fs0 "id" = some idv)
    (hIdv : idv ≠ PyVal.none)
    (hNetE : netE.dblist 0 = .ok ⟨200, t2, .ok (.dict [("result", .list [])])⟩) :
    (get_database_id net now name ⟨st0, initCounters⟩).1 = idv ∧
    idv ≠ PyVal.none ∧
    (get_database_id netE now name ⟨st0, initCounters⟩).1 = PyVal.none := by
  have hNoMatch := findDbLoop_nomatch name dbs hWf
  subst hCons
  refine ⟨?_, hIdv, ?_⟩
  · simp [get_database_id, get_database_id_run, get_database_id_core, doDblist, bindE, bindP,
      hAuth, hNet, initCounters, pyGetD, lookupKey, pyIter, hNoMatch, pyTruthy, pyIndex0,
      pyGet, hId]
  · simp [get_database_id, get_database_id_run, get_database_id_core, doDblist, bindE, bindP,
      hAuth, hNetE, initCounters, pyGetD, lookupKey, pyIter, findDbLoop, pyTruthy]

theorem bindE_snd_pres {α β : Type} {R : List ExecPayload} (x : Step α) (f : α → S → Step β)
    (hx : ((x.2).c).executeReqs = R)
    (hf : ∀ a s, ((f a s).2).c.executeReqs = s.c.executeReqs) :
    ((bindE x f).2).c.executeReqs = R := by
  rcases x with ⟨ex, sx⟩
  cases ex with
  | ok a => rw [bindE_ok, hf]; exact hx
  | error e => exact hx

/-- The synchronous-completion tail of `executeTry` preserves the request
log. -/
theorem syncTail_reqs (d : PyVal) (s2 : S) :
    ((bindP (pyGet d "status") s2 fun rstat s =>
      bindP (if isStrEq rstat "success" then .ok true else pyContains d "data") s fun cond s =>
      if cond then successFrom d s
      else if isStrEq rstat "error" then
        bindE (errorMsgFrom d s) fun em s =>
        ((Except.ok { status := "error",
                      message := some ("Query error: " ++ pyStr em) } : Except PyExc QueryResult), s)
      else
        bindP (pyGetD d "data" (.list [])) s fun dat s =>
        bindP (pyGetD d "columns" (.list [])) s fun cols s =>
        ((Except.ok { status := "success", data := some dat, columns := some cols,
                      query := some d } : Except PyExc QueryResult), s)).2).c.executeReqs
      = s2.c.executeReqs := by
  rcases hG : pyGet d "status" with e | rstat <;> simp only [hG, bindP_ok, bindP_err]
  rcases hC : (if isStrEq rstat "success" then (Except.ok true : Except PyExc Bool)
      else pyContains d "data") with e | cond <;> simp only [hC, bindP_ok, bindP_err]
  split
  · rw [successFrom_state]
  split
  · rw [bindE_snd _ _ (fun a s => rfl), errorMsgFrom_state]
  · rcases hD1 : pyGetD d "data" (.list []) with e | dat <;> simp only [hD1, bindP_ok, bindP_err]
    rcases hD2 : pyGetD d "columns" (.list []) with e | cols <;>
      simp only [hD2, bindP_ok, bindP_err]

/-- `executeTry` sends its payload once, or exactly twice when the
single 401-retry fires: nothing else is ever appended to the execute
log. -/
theorem executeTry_reqs (net : NetBehavior) (now : Nat) (payload : ExecPayload) (s : S) :
    ((executeTry net now payload s).2).c.executeReqs = s.c.executeReqs ++ [payload] ∨
    ((executeTry net now payload s).2).c.executeReqs = s.c.executeReqs ++ [payload, payload] := by
  unfold executeTry
  rcases hE : net.execute s.c.execute with e | resp <;>
    simp only [doExecute, hE, bindE_ok, bindE_err]
  · exact Or.inl trivial
  split
  · rcases hB : resp.body with e | d <;> simp only [hB, bindP_ok, bindP_err]
    · exact Or.inl trivial
    left
    refine bindE_snd_pres _ _ ?_ ?_
    · rw [pendingCheck_state]
    · intro b s2
      split
      · refine bindE_snd_pres _ _ ?_ ?_
        · rw [queryIdStep_state]
        · intro c s3
          exact pollLoop_reqs net 30 s3
      · exact syncTail_reqs d s2
  split
  · split
    · right
      refine bindE_snd_pres _ _ ?_ ?_
      · show ((force_reauthenticate net now _).2).c.executeReqs ++ [payload] = _
        rw [force_reauthenticate_reqs]
        simp
      · intro a s2
        rw [bindE_snd _ _ ?_, retryParse_state]
        intro g s3
        cases g <;> rfl
    · left
      show ((force_reauthenticate net now _).2).c.executeReqs = _
      rw [force_reauthenticate_reqs]
  · left; rfl

/-- Every payload `execute_query_run` appends carries the sql it was
called with. -/
theorem execute_query_run_sql (net : NetBehavior) (now : Nat) (cid seid sql : String)
    (dbid : PyVal) (qlim : Option Int) (s : S) :
    ∀ p ∈ ((execute_query_run net now cid seid sql dbid qlim s).2).c.executeReqs,
      p ∈ s.c.executeReqs ∨ p.sql = sql := by
  have h := executeTry_reqs net now (mkPayload cid dbid sql seid (qlim.getD 100)) s
  rcases hT : executeTry net now (mkPayload cid dbid sql seid (qlim.getD 100)) s with ⟨ex, s2⟩
  rw [hT] at h
  simp only [execute_query_run, hT]
  have key : ∀ p ∈ s2.c.executeReqs, p ∈ s.c.executeReqs ∨ p.sql = sql := by
    intro p hp
    rcases h with h | h <;> rw [h] at hp <;> simp only [List.mem_append] at hp <;>
      rcases hp with hp | hp
    · exact Or.inl hp
    · simp only [List.mem_singleton] at hp
      subst hp
      exact Or.inr rfl
    · exact Or.inl hp
    · simp only [List.mem_cons, List.not_mem_nil, or_false] at hp
      rcases hp with hp | hp <;> (subst hp; exact Or.inr rfl)
  cases ex <;> exact key

theorem execute_query_postAuth_sql (net : NetBehavior) (now : Nat) (cid seid sql : String)
    (database_id : PyVal) (dbname : String) (qlim : Option Int) (s : S) :
    ∀ p ∈ ((execute_query_postAuth net now cid seid sql database_id dbname
        qlim s).2).c.executeReqs,
      p ∈ s.c.executeReqs ∨ p.sql = sql := by
  unfold execute_query_postAuth
  simp only []
  split
  · have hdb := get_database_id_reqs net now dbname s
    split
    · intro p hp
      rw [hdb] at hp
      exact Or.inl hp
    · intro p hp
      rcases execute_query_run_sql net now cid seid sql _ qlim _ p hp with h | h
      · rw [hdb] at h
        exact Or.inl h
      · exact Or.inr h
  · exact execute_query_run_sql net now cid seid sql database_id qlim s

/-- Every payload `execute_query` appends carries the sql it was called
with. -/
theorem execute_query_sql (net : NetBehavior) (now : Nat) (cid seid sql : String)
    (database_id : PyVal) (dbname : String) (qlim : Option Int) (s : S) :
    ∀ p ∈ ((execute_query net now cid seid sql database_id dbname qlim s).2).c.executeReqs,
      p ∈ s.c.executeReqs ∨ p.sql = sql := by
  unfold execute_query
  simp only []
  split
  · exact execute_query_postAuth_sql net now cid seid sql database_id dbname qlim s
  · have ha := authenticate_reqs net now s
    split
    · intro p hp
      rcases execute_query_postAuth_sql net now cid seid sql database_id dbname qlim _ p hp
        with h | h
      · rw [ha] at h
        exact Or.inl h
      · exact Or.inr h
    · intro p hp
      rw [ha] at hp
      exact Or.inl hp

/-- The formatting phase of `execute_sql_query` never touches the state:
the tool's final state is `execute_query`'s. -/
theorem execute_sql_query_state (net : NetBehavior) (now : Nat) (cid seid q db : String)
    (limit : Int) (s : S) :
    (execute_sql_query net now cid seid q db limit s).2 =
    (execute_query net now cid seid (autoLimit q limit) .none db (some limit) s).2 := by
  unfold execute_sql_query
  simp only []
  split
  · rfl
  · split <;> rfl

/-- Fixture: a database list with a single entry named "other" with id
42. -/
def wNetDbOther : NetBehavior :=
  { wNetAuthOk with dblist := fun _ => .ok ⟨200, "",
      .ok (.dict [("result", .list [.dict [("database_name", .str "other"),
        ("id", .int 42)]])])⟩ }

/-- Fixture: an empty database list. -/
def wNetDbEmpty : NetBehavior :=
  { wNetAuthOk with dblist := fun _ => .ok ⟨200, "", .ok (.dict [("result", .list [])])⟩ }

theorem C5_get_database_id_fallback_witness :
    (get_database_id wNetDbOther 0 "X"
      ⟨{ access_token := .str "t", token_expiry := some 5 }, initCounters⟩).1 = .int 42 ∧
    PyVal.int 42 ≠ PyVal.none ∧
    (get_database_id wNetDbEmpty 0 "X"
      ⟨{ access_token := .str "t", token_expiry := some 5 }, initCounters⟩).1 = PyVal.none := by
  have h := C5_get_database_id_fallback wNetDbOther wNetDbEmpty 0 "X"
    { access_token := .str "t", token_expiry := some 5 } "" ""
    [.dict [("database_name", .str "other"), ("id", .int 42)]]
    [("database_name", .str "other"), ("id", .int 42)] [] (.int 42)
    (by decide) rfl
    (by
      intro db hdb
      simp only [List.mem_singleton] at hdb
      exact ⟨_, hdb, by simp [lookupKey]⟩)
    rfl rfl (by simp) rfl
  exact h

def wNetSqlOk : NetBehavior :=
  { wNetAuthOk with
    dblist := fun _ => .ok ⟨200, "", .ok (.dict [("result", .list [.dict
      [("database_name", .str "PostgreSQL"), ("id", .int 1)]])])⟩
    execute := fun _ => .ok ⟨200, "", .ok (.dict [("status", .str "success"),
      ("data", .list [.dict [("c", .int 1)]]),
      ("columns", .list [.dict [("column_name", .str "c")]])])⟩ }

def wAuthedS : S :=
  { st := { access_token := .str "t", token_expiry := some 5 }, c := initCounters }

/-- C3 counterexample: `"SELECT delimited FROM t"` contains no `LIMIT`
keyword, yet the query reaches the execute endpoint unchanged — no LIMIT
clause is appended, because the substring check sees `LIMIT` inside
`DELIMITED`. -/
theorem C3_keyword_claim_cex :
    hasLimitKeyword "SELECT delimited FROM t" = false ∧
    ((execute_sql_query wNetSqlOk 0 "cid" "eid" "SELECT delimited FROM t" "PostgreSQL" 100
      wAuthedS).2).c.executeReqs.map (fun p => p.sql) = ["SELECT delimited FROM t"] :=
  ⟨by decide, by rfl⟩

/-- C3 (amended): LIMIT detection is a case-insensitive SUBSTRING check,
not a keyword check.  Every SQL payload `execute_sql_query` sends is
`autoLimit query limit`: the query unchanged when its uppercase form
contains the substring `LIMIT` (or the limit is falsy), otherwise the
query stripped of trailing whitespace and semicolons with a single
`LIMIT` clause appended. -/
theorem C3_substring_autolimit (net : NetBehavior) (now : Nat) (cid seid q db : String)
    (limit : Int) (st0 : AuthState) :
    (∀ p ∈ ((execute_sql_query net now cid seid q db limit ⟨st0, initCounters⟩).2).c.executeReqs,
      p.sql = autoLimit q limit) ∧
    (containsSubstr (strUpper q) "LIMIT" = true → autoLimit q limit = q) ∧
    (containsSubstr (strUpper q) "LIMIT" = false → limit ≠ 0 →
      autoLimit q limit = rstripSemi (rstripWs q) ++ " LIMIT " ++ toString limit) := by
  refine ⟨?_, ?_, ?_⟩
  · intro p hp
    rw [execute_sql_query_state] at hp
    rcases execute_query_sql net now cid seid (autoLimit q limit) .none db (some limit) _ p hp
      with h | h
    · simp [initCounters] at h
    · exact h
  · intro h
    simp [autoLimit, h]
  · intro h1 h2
    have hb : (limit != 0) = true := by simpa [bne_iff_ne] using h2
    simp [autoLimit, h1, hb]

theorem C3_substring_autolimit_witness :
    (mkPayload "cid" (.int 1) "SELECT 1 LIMIT 100" "eid" 100).sql = autoLimit "SELECT 1" 100 ∧
    autoLimit "select * from t limit 5" 100 = "select * from t limit 5" ∧
    autoLimit "SELECT 1" 100 =
      rstripSemi (rstripWs "SELECT 1") ++ " LIMIT " ++ toString (100 : Int) := by
  have h := C3_substring_autolimit wNetSqlOk 0 "cid" "eid" "SELECT 1" "PostgreSQL" 100
    wAuthedS.st
  have h2 := C3_substring_autolimit wNetSqlOk 0 "cid" "eid" "select * from t limit 5"
    "PostgreSQL" 100 wAuthedS.st
  have hm : ((execute_sql_query wNetSqlOk 0 "cid" "eid" "SELECT 1" "PostgreSQL" 100
      ⟨wAuthedS.st, initCounters⟩).2).c.executeReqs
      = [mkPayload "cid" (.int 1) "SELECT 1 LIMIT 100" "eid" 100] := by rfl
  refine ⟨?_, ?_, ?_⟩
  · exact h.1 _ (hm ▸ List.mem_singleton_self _)
  · exact h2.2.1 (by decide)
  · exact h.2.2 (by decide) (by decide)

theorem stepPost_mono {α : Type} {P Q : α → S → Prop} (h : ∀ a s, P a s → Q a s)
    {x : Step α} (hx : StepPost P x) : StepPost Q x := by
  intro a s' heq
  exact h a s' (hx a s' heq)

theorem stepPost_bindE_comp {α β : Type} {P : α → S → Prop} {Q : β → S → Prop}
    (x : Step α) (f : α → S → Step β) (hx : StepPost P x)
    (hf : ∀ a s, P a s → StepPost Q (f a s)) : StepPost Q (bindE x f) := by
  rcases x with ⟨ex, sx⟩
  cases ex with
  | ok a => exact hf a sx (hx a sx rfl)
  | error e => exact stepPost_error

theorem successFrom_post (d : PyVal) (s : S) :
    StepPost (fun r _ => r.status = "success") (successFrom d s) := by
  unfold successFrom
  apply stepPost_bindP; intro dat s1
  apply stepPost_bindP; intro cols s2
  apply stepPost_bindP; intro q s3
  exact stepPost_ok rfl

theorem pollLoop_post (net : NetBehavior) :
    ∀ (fuel : Nat) (s : S),
      StepPost (fun r _ => r.status = "success" ∨ r.status = "error") (pollLoop net fuel s) := by
  intro fuel
  induction fuel with
  | zero => intro s; exact stepPost_ok (Or.inr rfl)
  | succ n ih =>
    intro s
    unfold pollLoop
    simp only []
    apply stepPost_bindE; intro resp s1
    split
    · apply stepPost_bindP; intro d s2
      apply stepPost_bindP; intro qs s3
      split
      · exact stepPost_mono (fun a s h => Or.inl h) (successFrom_post d s3)
      split
      · apply stepPost_bindE; intro em s4
        exact stepPost_ok (Or.inr rfl)
      · exact ih s3
    · exact ih s1

theorem retryParse_post (resp : HttpResp) (s : S) :
    StepPost (fun g _ => ∀ r, g = some r → r.status = "success") (retryParse resp s) := by
  unfold retryParse
  split
  · apply stepPost_bindP; intro d s1
    apply stepPost_bindP; intro rstat s2
    apply stepPost_bindP; intro cond s3
    split
    · refine stepPost_bindE_comp _ _ (successFrom_post d s3) ?_
      intro a s4 ha
      apply stepPost_ok
      intro r hr
      cases hr
      exact ha
    · apply stepPost_ok
      intro r hr
      cases hr
  · apply stepPost_ok
    intro r hr
    cases hr

theorem executeTry_post (net : NetBehavior) (now : Nat) (payload : ExecPayload) (s : S) :
    StepPost (fun r _ => r.status = "success" ∨ r.status = "error")
      (executeTry net now payload s) := by
  unfold executeTry
  apply stepPost_bindE; intro resp s1
  split
  · apply stepPost_bindP; intro d s2
    apply stepPost_bindE; intro pend s3
    split
    · apply stepPost_bindE; intro qid s4
      exact pollLoop_post net 30 s4
    · apply stepPost_bindP; intro rstat s4
      apply stepPost_bindP; intro cond s5
      split
      · exact stepPost_mono (fun a s h => Or.inl h) (successFrom_post d s5)
      split
      · apply stepPost_bindE; intro em s6
        exact stepPost_ok (Or.inr rfl)
      · apply stepPost_bindP; intro dat s6
        apply stepPost_bindP; intro cols s7
        exact stepPost_ok (Or.inl rfl)
  split
  · simp only []
    split
    · apply stepPost_bindE; intro retry s2
      refine stepPost_bindE_comp _ _ (retryParse_post retry _) ?_
      intro g s3 hg
      cases g with
      | some r => exact stepPost_ok (Or.inl (hg r rfl))
      | none => exact stepPost_ok (Or.inr rfl)
    · exact stepPost_ok (Or.inr rfl)
  · exact stepPost_ok (Or.inr rfl)

theorem authenticateCore_post (net : NetBehavior) (now : Nat) (s : S) :
    StepPost (fun r _ => r.status = "success" ∨ r.status = "error")
      (authenticateCore net now s) := by
  unfold authenticateCore
  apply stepPost_bindE; intro resp s1
  split
  · exact stepPost_ok (Or.inr rfl)
  apply stepPost_bindP; intro ld s2
  apply stepPost_bindP; intro atok s3
  apply stepPost_bindP; intro rtok s4
  simp only []
  apply stepPost_bindE; intro cresp s5
  apply stepPost_bindE; intro u s6
  apply stepPost_bindP; intro p1 s7
  apply stepPost_bindP; intro p2 s8
  exact stepPost_ok (Or.inl rfl)

theorem authenticate_status (net : NetBehavior) (now : Nat) (s : S) :
    (authenticate net now s).1.status = "success" ∨
    (authenticate net now s).1.status = "error" := by
  unfold authenticate
  have h := authenticateCore_post net now s
  rcases hC : authenticateCore net now s with ⟨ex, s2⟩
  cases ex with
  | ok r => exact h r s2 hC
  | error e => cases e <;> exact Or.inr rfl

theorem execute_query_run_status (net : NetBehavior) (now : Nat) (cid seid sql : String)
    (dbid : PyVal) (qlim : Option Int) (s : S) :
    (execute_query_run net now cid seid sql dbid qlim s).1.status = "success" ∨
    (execute_query_run net now cid seid sql dbid qlim s).1.status = "error" := by
  unfold execute_query_run
  simp only []
  have h := executeTry_post net now (mkPayload cid dbid sql seid (qlim.getD 100)) s
  rcases hT : executeTry net now (mkPayload cid dbid sql seid (qlim.getD 100)) s with ⟨ex, s2⟩
  cases ex with
  | ok r => exact h r s2 hT
  | error e => exact Or.inr rfl

theorem execute_query_status (net : NetBehavior) (now : Nat) (cid seid sql : String)
    (dbid : PyVal) (dbname : String) (qlim : Option Int) (s : S) :
    (execute_query net now cid seid sql dbid dbname qlim s).1.status = "success" ∨
    (execute_query net now cid seid sql dbid dbname qlim s).1.status = "error" := by
  unfold execute_query execute_query_postAuth
  simp only []
  split
  · split
    · split
      · exact Or.inr rfl
      · exact execute_query_run_status net now cid seid sql _ qlim _
    · exact execute_query_run_status net now cid seid sql dbid qlim s
  · split
    · split
      · split
        · exact Or.inr rfl
        · exact execute_query_run_status net now cid seid sql _ qlim _
      · exact execute_query_run_status net now cid seid sql dbid qlim _
    · exact Or.inr rfl

/-- C2: for every oracle behavior — connection refused, any raising HTTP or
JSON call, arbitrary payload shapes — `authenticate` and `execute_query`
return a status record tagged "success" or "error".  Both are total
functions of the embedding: every modelled raise (`Except.error`) of the
inner cores is converted by the `except` wrappers into the error-status
result, so no exception escapes to the caller. -/
theorem C2_total_status (net : NetBehavior) (now : Nat) (cid seid sql : String)
    (dbid : PyVal) (dbname : String) (qlim : Option Int) (s s2 : S) :
    ((authenticate net now s).1.status = "success" ∨
     (authenticate net now s).1.status = "error") ∧
    ((execute_query net now cid seid sql dbid dbname qlim s2).1.status = "success" ∨
     (execute_query net now cid seid sql dbid dbname qlim s2).1.status = "error") :=
  ⟨authenticate_status net now s,
   execute_query_status net now cid seid sql dbid dbname qlim s2⟩

set_option maxHeartbeats 1000000

theorem tokenPreview_str_eq (t : String) :
    tokenPreview (.str t) =
      .ok (if t.data.isEmpty then Option.none else some (strTake t 20 ++ "...")) := by
  unfold tokenPreview pyTruthy
  cases h : t.data.isEmpty <;> simp [h]

/-- C1: on a 401 from the execute endpoint, `execute_query` performs
exactly one retry cycle.  It calls `force_reauthenticate`; when that
succeeds it resends the identical payload once (the execute log is exactly
`[payload, payload]`) and, when the retried 200/202 response carries a
success-or-data payload, returns that payload's normalized success result
without surfacing the 401; when the retry fails (any other code — e.g. a
second 401 — or payload) it returns the "Query failed after
reauthentication" error, and when reauthentication itself fails it returns
the "Reauthentication failed" error with only the original request sent.
No polling and no further retries happen in any of these cases. -/
theorem C1_401_single_retry
    (net : NetBehavior) (st0 : AuthState) (now : Nat) (cid seid sql : String)
    (dbid : PyVal) (dbname : String) (qlim : Option Int) (reauthOk : Bool)
    (tok rtok ct lt t0 t1 : String) (b0 : Except PyExc PyVal) (c1 : Nat)
    (fs1 : List (String × PyVal))
    (hAuth : is_authenticated st0 now = true)
    (hDb : pyIsNone dbid = false)
    (hE0 : net.execute 0 = .ok ⟨401, t0, b0⟩)
    (hL : net.login 0 = (if reauthOk then
      .ok ⟨200, "", .ok (.dict [("access_token", .str tok), ("refresh_token", .str rtok)])⟩
      else .ok ⟨403, lt, .ok .none⟩))
    (hC : net.csrf 0 = .ok ⟨200, "", .ok (.dict [("result", .str ct)])⟩)
    (hE1 : net.execute 1 = .ok ⟨c1, t1, .ok (.dict fs1)⟩) :
    (execute_query net now cid seid sql dbid dbname qlim ⟨st0, initCounters⟩).1 =
      (if reauthOk then
        (if (c1 == 200 || c1 == 202) &&
            (isStrEq ((lookupKey fs1 "status").getD .none) "success"
              || (lookupKey fs1 "data").isSome) then
          { status := "success",
            data := some ((lookupKey fs1 "data").getD (.list [])),
            columns := some ((lookupKey fs1 "columns").getD (.list [])),
            query := some ((lookupKey fs1 "query").getD (.dict [])) }
        else { status := "error",
               message := some ("Query failed after reauthentication: " ++ strTake t1 500) })
      else { status := "error",
             message := some ("Reauthentication failed: "
               ++ ("Login failed with status " ++ toString (403 : Nat) ++ ": " ++ lt)) }) ∧
    ((execute_query net now cid seid sql dbid dbname qlim ⟨st0, initCounters⟩).2).c.executeReqs =
      (if reauthOk then [mkPayload cid dbid sql seid (qlim.getD 100),
                         mkPayload cid dbid sql seid (qlim.getD 100)]
       else [mkPayload cid dbid sql seid (qlim.getD 100)]) ∧
    ((execute_query net now cid seid sql dbid dbname qlim ⟨st0, initCounters⟩).2).c.results = 0 := by
  cases reauthOk
  · simp only [Bool.false_eq_true, reduceIte] at hL ⊢
    simp [execute_query, execute_query_postAuth, execute_query_run, executeTry,
      doExecute, doLogin, doCsrf, force_reauthenticate, authenticate, authenticateCore,
      csrfStep, bindE, bindP, hAuth, hDb, hE0, hL, initCounters]
  · simp only [reduceIte] at hL ⊢
    by_cases hP : c1 = 200 ∨ c1 = 202
    · cases hst : isStrEq ((lookupKey fs1 "status").getD .none) "success"
      · cases hdata : (lookupKey fs1 "data").isSome
        · simp [execute_query, execute_query_postAuth, execute_query_run, executeTry,
            doExecute, doLogin, doCsrf, force_reauthenticate, authenticate, authenticateCore,
            csrfStep, tokenPreview_str_eq, retryParse, pendingCheck, successFrom,
            pyGet, pyGetD, pyContains, lookupKey,
            bindE, bindP, hAuth, hDb, hE0, hE1, hL, hC, initCounters, hP, hst, hdata]
        · simp [execute_query, execute_query_postAuth, execute_query_run, executeTry,
            doExecute, doLogin, doCsrf, force_reauthenticate, authenticate, authenticateCore,
            csrfStep, tokenPreview_str_eq, retryParse, pendingCheck, successFrom,
            pyGet, pyGetD, pyContains, lookupKey,
            bindE, bindP, hAuth, hDb, hE0, hE1, hL, hC, initCounters, hP, hst, hdata]
      · simp [execute_query, execute_query_postAuth, execute_query_run, executeTry,
          doExecute, doLogin, doCsrf, force_reauthenticate, authenticate, authenticateCore,
          csrfStep, tokenPreview_str_eq, retryParse, pendingCheck, successFrom,
          pyGet, pyGetD, pyContains, lookupKey,
          bindE, bindP, hAuth, hDb, hE0, hE1, hL, hC, initCounters, hP, hst]
    · simp [execute_query, execute_query_postAuth, execute_query_run, executeTry,
        doExecute, doLogin, doCsrf, force_reauthenticate, authenticate, authenticateCore,
        csrfStep, tokenPreview_str_eq, retryParse, pendingCheck, successFrom,
        pyGet, pyGetD, pyContains, lookupKey,
        bindE, bindP, hAuth, hDb, hE0, hE1, hL, hC, initCounters, hP]

def wNet401 : NetBehavior :=
  { login := fun _ => .ok ⟨200, "", .ok (.dict [("access_token", .str "tok2"),
      ("refresh_token", .str "ref2")])⟩
    csrf := fun _ => .ok ⟨200, "", .ok (.dict [("result", .str "csrf2")])⟩
    dblist := fun _ => .error .connError
    execute := fun n => if n = 0 then .ok ⟨401, "unauthorized", .ok .none⟩
      else .ok ⟨200, "", .ok (.dict [("status", .str "success"), ("data", .list [.int 7])])⟩
    results := fun _ => .error .connError
    chart := fun _ => .error .connError }

theorem C1_401_single_retry_witness :
    (execute_query wNet401 0 "cid" "eid" "SELECT 1" (.int 5) "db" (some 50)
      ⟨{ access_token := .str "t", token_expiry := some 5 }, initCounters⟩).1 =
      { status := "success", data := some (.list [.int 7]), columns := some (.list []),
        query := some (.dict []) } ∧
    ((execute_query wNet401 0 "cid" "eid" "SELECT 1" (.int 5) "db" (some 50)
      ⟨{ access_token := .str "t", token_expiry := some 5 }, initCounters⟩).2).c.executeReqs =
      [mkPayload "cid" (.int 5) "SELECT 1" "eid" 50, mkPayload "cid" (.int 5) "SELECT 1" "eid" 50] ∧
    ((execute_query wNet401 0 "cid" "eid" "SELECT 1" (.int 5) "db" (some 50)
      ⟨{ access_token := .str "t", token_expiry := some 5 }, initCounters⟩).2).c.results = 0 := by
  have h := C1_401_single_retry wNet401 { access_token := .str "t", token_expiry := some 5 } 0
    "cid" "eid" "SELECT 1" (.int 5) "db" (some 50) true "tok2" "ref2" "csrf2" "" "unauthorized" ""
    (.ok .none) 200 [("status", .str "success"), ("data", .list [.int 7])]
    (by decide) (by decide) rfl rfl rfl rfl
  simpa [lookupKey, isStrEq] using h

set_option maxHeartbeats 1000000

def wNet401p : NetBehavior :=
  { login := fun _ => .ok ⟨200, "", .ok (.dict [("access_token", .str "tok2"),
      ("refresh_token", .str "ref2")])⟩
    csrf := fun _ => .ok ⟨200, "", .ok (.dict [("result", .str "csrf2")])⟩
    dblist := fun _ => .error .connError
    execute := fun n => if n = 0 then .ok ⟨401, "unauthorized", .ok .none⟩
      else .ok ⟨202, "pend", .ok (.dict [("status", .str "pending"), ("id", .int 3)])⟩
    results := fun _ => .error .connError
    chart := fun _ => .error .connError }

/-- C10: on the single post-reauthentication retry, a 200/202 response
whose payload neither has status "success" nor contains a "data" field
(for example a pending/asynchronous payload) yields the "Query failed
after reauthentication" error: the retry path never enters the polling
loop — zero polls and zero sleeps — unlike the first attempt. -/
theorem C10_retry_never_polls
    (net : NetBehavior) (st0 : AuthState) (now : Nat) (cid seid sql : String)
    (dbid : PyVal) (dbname : String) (qlim : Option Int)
    (tok rtok ct t0 t1 : String) (b0 : Except PyExc PyVal) (c1 : Nat)
    (fs1 : List (String × PyVal))
    (hAuth : is_authenticated st0 now = true)
    (hDb : pyIsNone dbid = false)
    (hE0 : net.execute 0 = .ok ⟨401, t0, b0⟩)
    (hL : net.login 0 = .ok ⟨200, "",
      .ok (.dict [("access_token", .str tok), ("refresh_token", .str rtok)])⟩)
    (hC : net.csrf 0 = .ok ⟨200, "", .ok (.dict [("result", .str ct)])⟩)
    (hE1 : net.execute 1 = .ok ⟨c1, t1, .ok (.dict fs1)⟩)
    (hc1 : c1 = 200 ∨ c1 = 202)
    (hst : isStrEq ((lookupKey fs1 "status").getD .none) "success" = false)
    (hdata : (lookupKey fs1 "data").isSome = false) :
    (execute_query net now cid seid sql dbid dbname qlim ⟨st0, initCounters⟩).1 =
      { status := "error",
        message := some ("Query failed after reauthentication: " ++ strTake t1 500) } ∧
    ((execute_query net now cid seid sql dbid dbname qlim ⟨st0, initCounters⟩).2).c.results = 0 ∧
    ((execute_query net now cid seid sql dbid dbname qlim ⟨st0, initCounters⟩).2).c.sleeps = 0 := by
  simp [execute_query, execute_query_postAuth, execute_query_run, executeTry,
    doExecute, doLogin, doCsrf, force_reauthenticate, authenticate, authenticateCore,
    csrfStep, tokenPreview_str_eq, retryParse, pendingCheck, successFrom,
    pyGet, pyGetD, pyContains, lookupKey,
    bindE, bindP, hAuth, hDb, hE0, hE1, hL, hC, initCounters, hc1, hst, hdata]

theorem C10_retry_never_polls_witness :
    (execute_query wNet401p 0 "cid" "eid" "SELECT 1" (.int 5) "db" (some 50)
      ⟨{ access_token := .str "t", token_expiry := some 5 }, initCounters⟩).1 =
      { status := "error",
        message := some ("Query failed after reauthentication: " ++ strTake "pend" 500) } ∧
    ((execute_query wNet401p 0 "cid" "eid" "SELECT 1" (.int 5) "db" (some 50)
      ⟨{ access_token := .str "t", token_expiry := some 5 }, initCounters⟩).2).c.results = 0 ∧
    ((execute_query wNet401p 0 "cid" "eid" "SELECT 1" (.int 5) "db" (some 50)
      ⟨{ access_token := .str "t", token_expiry := some 5 }, initCounters⟩).2).c.sleeps = 0 := by
  have h := C10_retry_never_polls wNet401p { access_token := .str "t", token_expiry := some 5 } 0
    "cid" "eid" "SELECT 1" (.int 5) "db" (some 50) "tok2" "ref2" "csrf2" "unauthorized" "pend"
    (.ok .none) 202 [("status", .str "pending"), ("id", .int 3)]
    (by decide) (by decide) rfl rfl rfl rfl (Or.inr rfl) (by decide) (by decide)
  exact h

end Superset

namespace Superset

/-- A poll response on which the loop keeps polling: any non-200 status
code, or a 200 dict payload whose status is neither "success" nor
"error". -/
def isPendingB (r : HttpResult) : Bool :=
  match r with
  | .error _ => false
  | .ok resp =>
    if resp.status_code = 200 then
      match resp.body with
      | .ok (.dict fs) =>
        !(isStrEq ((lookupKey fs "status").getD .none) "success")
          && !(isStrEq ((lookupKey fs "status").getD .none) "error")
      | _ => false
    else true

/-- State change of one non-decisive poll iteration. -/
def bumpPoll (s : S) : S :=
  { s with c := { s.c with results := s.c.results + 1, sleeps := s.c.sleeps + 1 } }

/-- State change of `j` poll iterations. -/
def bumpPollN (j : Nat) (s : S) : S :=
  { s with c := { s.c with results := s.c.results + j, sleeps := s.c.sleeps + j } }

theorem pollLoop_pending_step (net : NetBehavior) (fuel : Nat) (s : S)
    (h : isPendingB (net.results s.c.results) = true) :
    pollLoop net (fuel + 1) s = pollLoop net fuel (bumpPoll s) := by
  conv_lhs => unfold pollLoop
  simp only []
  rcases hR : net.results s.c.results with e | resp
  · simp [isPendingB, hR] at h
  rw [hR] at h
  simp only [doResults, hR, bindE_ok]
  by_cases hc : resp.status_code = 200
  · rcases hB : resp.body with e | d
    · simp [isPendingB, hc, hB] at h
    rcases d with _ | b | n | t | xs | fs <;> simp [isPendingB, hc, hB] at h
    obtain ⟨h1, h2⟩ := h
    simp [hc, hB, bindP_ok, pyGet, h1, h2, bumpPoll]
  · simp only [hc, if_false, reduceIte, bumpPoll]

end Superset

namespace Superset

theorem bumpPollN_zero (s : S) : bumpPollN 0 s = s := rfl

theorem bumpPollN_succ_comm (j : Nat) (s : S) :
    bumpPollN j (bumpPoll s) = bumpPollN (j + 1) s := by
  unfold bumpPollN bumpPoll
  simp [Nat.add_assoc, Nat.add_comm 1 j]

theorem pollLoop_skip (net : NetBehavior) :
    ∀ (j fuel : Nat) (s : S), j ≤ fuel →
      (∀ i, i < j → isPendingB (net.results (s.c.results + i)) = true) →
      pollLoop net fuel s = pollLoop net (fuel - j) (bumpPollN j s) := by
  intro j
  induction j with
  | zero => intro fuel s _ _; rfl
  | succ n ih =>
    intro fuel s hle hpend
    obtain ⟨f, rfl⟩ : ∃ f, fuel = f + 1 := ⟨fuel - 1, by omega⟩
    have h0 : isPendingB (net.results s.c.results) = true := by
      have := hpend 0 (by omega)
      simpa using this
    rw [pollLoop_pending_step net f s h0]
    have hrec := ih f (bumpPoll s) (by omega) ?_
    · rw [hrec, bumpPollN_succ_comm]
      congr 1
      omega
    · intro i hi
      have := hpend (i + 1) (by omega)
      have harg : (bumpPoll s).c.results + i = s.c.results + (i + 1) := by
        simp [bumpPoll]
        omega
      rw [harg]
      exact this

theorem pollLoop_success_step (net : NetBehavior) (fuel : Nat) (s : S)
    (t : String) (fs : List (String × PyVal))
    (hR : net.results s.c.results = .ok ⟨200, t, .ok (.dict fs)⟩)
    (hSt : lookupKey fs "status" = some (.str "success")) :
    pollLoop net (fuel + 1) s =
      (.ok { status := "success",
             data := some ((lookupKey fs "data").getD (.list [])),
             columns := some ((lookupKey fs "columns").getD (.list [])),
             query := some ((lookupKey fs "query").getD (.dict [])) }, bumpPoll s) := by
  conv_lhs => unfold pollLoop
  simp only []
  simp [doResults, hR, bindE_ok, bindP_ok, pyGet, hSt, isStrEq, successFrom, pyGetD, bumpPoll]

theorem pollLoop_error_step (net : NetBehavior) (fuel : Nat) (s : S)
    (t em : String) (fs : List (String × PyVal))
    (hR : net.results s.c.results = .ok ⟨200, t, .ok (.dict fs)⟩)
    (hSt : lookupKey fs "status" = some (.str "error"))
    (hEm : lookupKey fs "error" = some (.str em))
    (hNe : em.data.isEmpty = false) :
    pollLoop net (fuel + 1) s =
      (.ok { status := "error", message := some ("Query error: " ++ em) }, bumpPoll s) := by
  conv_lhs => unfold pollLoop
  simp only []
  simp [doResults, hR, bindE_ok, bindP_ok, pyGet, hSt, hEm, hNe, isStrEq, errorMsgFrom,
    pyTruthy, pyStr, bumpPoll]

theorem pollLoop_timeout (net : NetBehavior) (s : S)
    (h : ∀ i, i < 30 → isPendingB (net.results (s.c.results + i)) = true) :
    pollLoop net 30 s =
      (.ok { status := "error", message := some "Query timeout - took too long to execute" },
       bumpPollN 30 s) := by
  rw [pollLoop_skip net 30 30 s (by omega) h]
  rfl

end Superset

namespace Superset

set_option maxHeartbeats 2000000

/-- The `query_id` extraction (line 289) does not raise: either `id` is
truthy, or the `query` field (defaulted to an empty dict) is a dict. -/
def queryIdOk (fs0 : List (String × PyVal)) : Bool :=
  pyTruthy ((lookupKey fs0 "id").getD .none) ||
    (match (lookupKey fs0 "query").getD (.dict []) with
     | .dict _ => true
     | _ => false)

/-- The state after the initial execute request of an async run: one
execute request logged, all other counters zero. -/
def execS1 (st0 : AuthState) (p : ExecPayload) : S :=
  ⟨st0, ⟨0, 0, 0, 1, 0, 0, 0, [p]⟩⟩

theorem C4_bounded_polling
    (net : NetBehavior) (st0 : AuthState) (now : Nat) (cid seid sql : String)
    (dbid : PyVal) (dbname : String) (qlim : Option Int)
    (c0 : Nat) (t0 tk em stk : String) (fs0 fsk : List (String × PyVal)) (k : Nat)
    (hAuth : is_authenticated st0 now = true)
    (hDb : pyIsNone dbid = false)
    (hE0 : net.execute 0 = .ok ⟨c0, t0, .ok (.dict fs0)⟩)
    (hPend0 : c0 = 202 ∨ (c0 = 200 ∧ lookupKey fs0 "status" = some (.str "pending")))
    (hQid : queryIdOk fs0 = true)
    (hk1 : 1 ≤ k) (hk31 : k ≤ 31)
    (hPend : ∀ i, i + 1 < k → isPendingB (net.results i) = true)
    (hKth : k ≤ 30 → net.results (k - 1) = .ok ⟨200, tk, .ok (.dict fsk)⟩)
    (hStk : k ≤ 30 → lookupKey fsk "status" = some (.str stk))
    (hDec : k ≤ 30 → (stk = "success" ∨ (stk = "error" ∧
      lookupKey fsk "error" = some (.str em) ∧ em.data.isEmpty = false))) :
    (execute_query net now cid seid sql dbid dbname qlim ⟨st0, initCounters⟩).1 =
      (if k ≤ 30 then
        (if stk = "success" then
          { status := "success",
            data := some ((lookupKey fsk "data").getD (.list [])),
            columns := some ((lookupKey fsk "columns").getD (.list [])),
            query := some ((lookupKey fsk "query").getD (.dict [])) }
         else { status := "error", message := some ("Query error: " ++ em) })
       else { status := "error",
              message := some "Query timeout - took too long to execute" }) ∧
    ((execute_query net now cid seid sql dbid dbname qlim ⟨st0, initCounters⟩).2).c.results
      = min k 30 ∧
    ((execute_query net now cid seid sql dbid dbname qlim ⟨st0, initCounters⟩).2).c.sleeps
      = min k 30 ∧
    ((execute_query net now cid seid sql dbid dbname qlim ⟨st0, initCounters⟩).2).c.executeReqs
      = [mkPayload cid dbid sql seid (qlim.getD 100)] := by
  have hTry : executeTry net now (mkPayload cid dbid sql seid (qlim.getD 100))
      ⟨st0, initCounters⟩ =
      pollLoop net 30 (execS1 st0 (mkPayload cid dbid sql seid (qlim.getD 100))) := by
    unfold executeTry
    simp only [doExecute, initCounters, hE0, bindE_ok]
    have hcond : ∀ s2 : S,
        pendingCheck ⟨c0, t0, .ok (.dict fs0)⟩ (.dict fs0) s2 = (.ok true, s2) := by
      intro s2
      rcases hPend0 with h202 | ⟨h200, hpstat⟩
      · subst h202
        simp [pendingCheck]
      · subst h200
        simp [pendingCheck, pyGet, hpstat, isStrEq, bindP_ok]
    have hqid : ∀ s2 : S, ∃ v, queryIdStep (.dict fs0) s2 = (.ok v, s2) := by
      intro s2
      cases hTr : pyTruthy ((lookupKey fs0 "id").getD .none)
      · cases hQv : (lookupKey fs0 "query").getD (.dict []) <;>
          simp [queryIdOk, hTr, hQv] at hQid
        case dict gs =>
          refine ⟨(lookupKey gs "id").getD .none, ?_⟩
          simp [queryIdStep, pyGet, pyGetD, hTr, hQv, bindP_ok]
      · exact ⟨(lookupKey fs0 "id").getD .none,
          by simp [queryIdStep, pyGet, hTr, bindP_ok]⟩
    have hC : c0 = 200 ∨ c0 = 202 := by
      rcases hPend0 with h | ⟨h, _⟩
      · exact Or.inr h
      · exact Or.inl h
    simp only [hC, if_true, bindP_ok, hcond, bindE_ok]
    obtain ⟨v, hv⟩ := hqid (execS1 st0 (mkPayload cid dbid sql seid (qlim.getD 100)))
    simp [execS1] at hv
    simp [hv, bindE_ok, execS1]
  by_cases hk : k ≤ 30
  · have hkth := hKth hk
    have hstk := hStk hk
    have hskip := pollLoop_skip net (k - 1) 30
      (execS1 st0 (mkPayload cid dbid sql seid (qlim.getD 100)))
      (by omega) (by intro i hi; simpa [execS1] using hPend i (by omega))
    have hfuel : 30 - (k - 1) = (30 - k) + 1 := by omega
    rw [hfuel] at hskip
    have hres : (bumpPollN (k - 1)
        (execS1 st0 (mkPayload cid dbid sql seid (qlim.getD 100)))).c.results
        = k - 1 := by
      simp [bumpPollN, execS1]
    rcases hDec hk with hsucc | ⟨herr, hEm, hNe⟩
    · have hstep := pollLoop_success_step net (30 - k) _ tk fsk
        (by rw [hres]; exact hkth) (by rw [hsucc] at hstk; exact hstk)
      rw [hskip, hstep] at hTry
      unfold execute_query execute_query_postAuth execute_query_run
      simp only [hAuth, hDb, if_true, Bool.false_eq_true, reduceIte, hTry]
      simp [hk, hsucc, bumpPoll, bumpPollN, execS1]
      omega
    · have hstep := pollLoop_error_step net (30 - k) _ tk em fsk
        (by rw [hres]; exact hkth) (by rw [herr] at hstk; exact hstk) hEm hNe
      rw [hskip, hstep] at hTry
      unfold execute_query execute_query_postAuth execute_query_run
      simp only [hAuth, hDb, if_true, Bool.false_eq_true, reduceIte, hTry]
      have hne : stk ≠ "success" := by rw [herr]; decide
      simp [hk, hne, bumpPoll, bumpPollN, execS1]
      omega
  · have hto := pollLoop_timeout net
      (execS1 st0 (mkPayload cid dbid sql seid (qlim.getD 100)))
      (by intro i hi; simpa [execS1] using hPend i (by omega))
    rw [hto] at hTry
    unfold execute_query execute_query_postAuth execute_query_run
    simp only [hAuth, hDb, if_true, Bool.false_eq_true, reduceIte, hTry]
    simp [hk, bumpPollN, execS1]
    omega

end Superset

namespace Superset

def wNetAsync : NetBehavior :=
  { wNetAuthOk with
    execute := fun _ => .ok ⟨202, "", .ok (.dict [("id", .int 7)])⟩
    results := fun i =>
      if i < 2 then
        .ok ⟨200, "", .ok (.dict [("status", .str "running")])⟩
      else
        .ok ⟨200, "", .ok (.dict [("status", .str "success"),
          ("data", .list [.int 42]), ("columns", .list [])])⟩ }

theorem C4_bounded_polling_witness :
    (execute_query wNetAsync 0 "cid" "eid" "SELECT 1" (.int 1) "PostgreSQL" Option.none
      ⟨{ access_token := .str "t", token_expiry := some 5 }, initCounters⟩).1 =
      { status := "success", data := some (.list [.int 42]),
        columns := some (.list []), query := some (.dict []) } ∧
    ((execute_query wNetAsync 0 "cid" "eid" "SELECT 1" (.int 1) "PostgreSQL" Option.none
      ⟨{ access_token := .str "t", token_expiry := some 5 }, initCounters⟩).2).c.results = 3 ∧
    ((execute_query wNetAsync 0 "cid" "eid" "SELECT 1" (.int 1) "PostgreSQL" Option.none
      ⟨{ access_token := .str "t", token_expiry := some 5 }, initCounters⟩).2).c.sleeps = 3 ∧
    ((execute_query wNetAsync 0 "cid" "eid" "SELECT 1" (.int 1) "PostgreSQL" Option.none
      ⟨{ access_token := .str "t", token_expiry := some 5 }, initCounters⟩).2).c.executeReqs
      = [mkPayload "cid" (.int 1) "SELECT 1" "eid" 100] := by
  exact C4_bounded_polling wNetAsync
    { access_token := .str "t", token_expiry := some 5 } 0 "cid" "eid" "SELECT 1"
    (.int 1) "PostgreSQL" Option.none 202 "" "" "" "success"
    [("id", .int 7)]
    [("status", .str "success"), ("data", .list [.int 42]), ("columns", .list [])]
    3 (by decide) (by decide) rfl (Or.inl rfl) (by decide) (by decide) (by decide)
    (by intro i hi
        have h2 : i < 2 := by omega
        interval_cases i <;> rfl)
    (fun _ => rfl) (fun _ => rfl) (fun _ => Or.inl rfl)

end Superset

namespace Superset

/-- Well-formed `filters` argument for the chart tool: absent/falsy, or a
list of dicts each carrying the `column` and `value` keys that line 128
subscripts. -/
def filterArgOk (filters : PyVal) : Bool :=
  match filters with
  | .list fs => fs.all (fun f => match f with
      | .dict kvs => (lookupKey kvs "column").isSome && (lookupKey kvs "value").isSome
      | _ => false)
  | v => !(pyTruthy v)

theorem adhocFiltersLoop_ok (fs : List PyVal)
    (h : ∀ f ∈ fs, ∃ kvs, f = PyVal.dict kvs) : adhocFiltersLoop fs = .ok () := by
  induction fs with
  | nil => rfl
  | cons f rest ih =>
    obtain ⟨kvs, rfl⟩ := h f (by simp)
    simpa [adhocFiltersLoop, pyGetD] using ih (fun g hg => h g (by simp [hg]))

theorem queryContextFiltersLoop_ok (fs : List PyVal)
    (h : ∀ f ∈ fs, ∃ kvs, f = PyVal.dict kvs ∧
      (lookupKey kvs "column").isSome ∧ (lookupKey kvs "value").isSome) :
    queryContextFiltersLoop fs = .ok () := by
  induction fs with
  | nil => rfl
  | cons f rest ih =>
    obtain ⟨kvs, rfl, hc, hv⟩ := h f (by simp)
    obtain ⟨x, hx⟩ := Option.isSome_iff_exists.mp hc
    obtain ⟨y, hy⟩ := Option.isSome_iff_exists.mp hv
    simpa [queryContextFiltersLoop, pyItem, pyGetD, hx, hy]
      using ih (fun g hg => h g (by simp [hg]))

theorem chartFilterChecks_ok (filters : PyVal) (hF : filterArgOk filters = true) :
    chartFilterChecks filters = .ok () := by
  match filters with
  | .list fs =>
    simp only [filterArgOk, List.all_eq_true] at hF
    have hdicts : ∀ f ∈ fs, ∃ kvs, f = PyVal.dict kvs ∧
        (lookupKey kvs "column").isSome ∧ (lookupKey kvs "value").isSome := by
      intro f hf
      have := hF f hf
      match f with
      | .dict kvs =>
        simp only [Bool.and_eq_true] at this
        exact ⟨kvs, rfl, this.1, this.2⟩
    cases fs with
    | nil => rfl
    | cons f rest =>
      unfold chartFilterChecks
      have hT : pyTruthy (.list (f :: rest)) = true := by simp [pyTruthy]
      rw [hT]
      simp only [if_true, pyIter]
      rw [adhocFiltersLoop_ok _ (fun g hg => (hdicts g hg).imp fun kvs hk => hk.1),
        queryContextFiltersLoop_ok _ hdicts]
  | .none => rfl
  | .bool b =>
    simp only [filterArgOk, pyTruthy, Bool.not_eq_true'] at hF
    subst hF; rfl
  | .int n =>
    simp only [filterArgOk, pyTruthy, Bool.not_eq_true'] at hF
    unfold chartFilterChecks
    simp [pyTruthy, hF, pyIter, queryContextFiltersLoop]
  | .str t =>
    simp only [filterArgOk, pyTruthy, Bool.not_eq_true'] at hF
    unfold chartFilterChecks
    simp [pyTruthy, hF, pyIter, queryContextFiltersLoop]
  | .dict kvs =>
    simp only [filterArgOk, pyTruthy, Bool.not_eq_true'] at hF
    unfold chartFilterChecks
    simp [pyTruthy, hF, pyIter, queryContextFiltersLoop]

theorem errCreatingPre (r : String) :
    "Error creating chart: " ++ r = "Error" ++ (" creating chart: " ++ r) := by
  rw [← String.append_assoc]
  exact congrArg (fun a => a ++ r) (by decide)

theorem errNotAuthPre :
    ("Error: Not authenticated with Superset. Please run authenticate_superset first."
      : String)
      = "Error" ++ ": Not authenticated with Superset. Please run authenticate_superset first." := by
  decide

theorem chartSuccPre (rest : String) :
    "Chart created successfully!\n- Chart Name: " ++ rest
      = "Chart created successfully!" ++ ("\n- Chart Name: " ++ rest) := by
  rw [← String.append_assoc]
  exact congrArg (fun a => a ++ rest) (by decide)

theorem chart_tool_outcome (net : NetBehavior) (now : Nat) (genName chart_type : String)
    (chart_name filters : PyVal) (s : S) (hF : filterArgOk filters = true) :
    ∃ out s', create_superset_chart net now genName chart_type chart_name filters s
        = (.ok out, s') ∧
      ((∃ r, out = "Error" ++ r) ∨ (∃ r, out = "Failed to create chart: " ++ r) ∨
       (∃ r, out = "Chart created successfully!" ++ r)) := by
  unfold create_superset_chart
  cases hA : is_authenticated s.st now
  · refine ⟨_, s, by simp [hA], Or.inl ⟨_, errNotAuthPre⟩⟩
  · simp only [hA, Bool.not_true, Bool.false_eq_true, if_false]
    rw [chartFilterChecks_ok filters hF]
    simp only [doChart]
    rcases hC : net.chart s.c.chart with e | resp
    · simp only [bindE_err]
      exact ⟨_, _, rfl, Or.inl ⟨_, errCreatingPre _⟩⟩
    · simp only [bindE_ok]
      by_cases h201 : resp.status_code = 201
      · simp only [h201, if_true, reduceIte]
        rcases hB : resp.body with e | rd
        · simp only [bindP_err, bindE_err]
          exact ⟨_, _, rfl, Or.inl ⟨_, errCreatingPre _⟩⟩
        · simp only [bindP_ok]
          rcases hCt : pyContains rd "result" with e | hasR
          · simp only [bindP_err, bindE_err]
            exact ⟨_, _, rfl, Or.inl ⟨_, errCreatingPre _⟩⟩
          · simp only [bindP_ok]
            cases hasR
            · simp only [Bool.false_eq_true, if_false]
              rcases hG : pyGet rd "id" with e | cid
              · simp only [bindP_err, bindE_err]
                exact ⟨_, _, rfl, Or.inl ⟨_, errCreatingPre _⟩⟩
              · simp only [bindP_ok, bindE_ok]
                refine ⟨_, _, rfl, Or.inr (Or.inr ?_)⟩
                simp only [String.append_assoc, chartSuccPre]
                exact ⟨_, rfl⟩
            · simp only [if_true, reduceIte]
              rcases hIt : pyItem rd "result" with e | cd
              · simp only [bindP_err, bindE_err]
                exact ⟨_, _, rfl, Or.inl ⟨_, errCreatingPre _⟩⟩
              · simp only [bindP_ok]
                rcases hG : pyGet cd "id" with e | dflt
                · simp only [bindP_err, bindE_err]
                  exact ⟨_, _, rfl, Or.inl ⟨_, errCreatingPre _⟩⟩
                · simp only [bindP_ok]
                  rcases hGD : pyGetD rd "id" dflt with e | cid
                  · simp only [bindP_err, bindE_err]
                    exact ⟨_, _, rfl, Or.inl ⟨_, errCreatingPre _⟩⟩
                  · simp only [bindP_ok, bindE_ok]
                    refine ⟨_, _, rfl, Or.inr (Or.inr ?_)⟩
                    simp only [String.append_assoc, chartSuccPre]
                    exact ⟨_, rfl⟩
      · simp only [h201, if_false, reduceIte]
        refine ⟨_, _, rfl, Or.inr (Or.inl ?_)⟩
        simp only [String.append_assoc]
        exact ⟨_, rfl⟩

theorem formatSqlResult_ok_shape (q : String) (d c : PyVal) (out : String)
    (h : formatSqlResult q d c = .ok out) :
    (∃ r, out = "Query executed successfully. No results found.\nQuery: " ++ r) ∨
    (∃ r, out = "Query: " ++ r) := by
  unfold formatSqlResult at h
  cases hT : pyTruthy d
  · simp only [hT, Bool.not_false, if_true, reduceIte, Except.ok.injEq] at h
    exact Or.inl ⟨q, h.symm⟩
  · simp only [hT, Bool.not_true, Bool.false_eq_true, if_false, reduceIte] at h
    rcases hE : extractColumnNames c d with e | cols
    · rw [hE] at h; simp at h
    · rw [hE] at h
      simp only [] at h
      cases hEmp : cols.isEmpty
      · simp only [hEmp, Bool.false_eq_true, if_false, reduceIte] at h
        rcases hJ : pyJoin " | " cols with e | hd
        · rw [hJ] at h; simp at h
        · rw [hJ] at h
          simp only [] at h
          rcases hSl : pySliceTake 10 d with e | sl
          · rw [hSl] at h; simp at h
          · rw [hSl] at h
            simp only [] at h
            rcases hIt : pyIter sl with e | rows
            · rw [hIt] at h; simp at h
            · rw [hIt] at h
              simp only [] at h
              rcases hRb : rowsBlock cols rows with e | rb
              · rw [hRb] at h; simp at h
              · rw [hRb] at h
                simp only [] at h
                rcases hL : pyLen d with e | n
                · rw [hL] at h; simp at h
                · rw [hL] at h
                  simp only [Except.ok.injEq] at h
                  subst h
                  right
                  simp only [String.append_assoc]
                  exact ⟨_, rfl⟩
      · simp only [hEmp, if_true, reduceIte] at h
        rcases hSl : pySliceTake 10 d with e | sl
        · rw [hSl] at h; simp at h
        · rw [hSl] at h
          simp only [] at h
          rcases hL : pyLen d with e | n
          · rw [hL] at h; simp at h
          · rw [hL] at h
            simp only [Except.ok.injEq] at h
            subst h
            right
            simp only [String.append_assoc]
            exact ⟨_, rfl⟩

theorem formatAggResult_ok_shape (q : String) (d c : PyVal) (out : String)
    (h : formatAggResult q d c = .ok out) :
    (∃ r, out = "Aggregation query executed successfully. No results found.\nQuery: " ++ r) ∨
    (∃ r, out = "=== Aggregation Results ===\n" ++ r) := by
  unfold formatAggResult at h
  cases hT : pyTruthy d
  · simp only [hT, Bool.not_false, if_true, reduceIte, Except.ok.injEq] at h
    exact Or.inl ⟨q, h.symm⟩
  · simp only [hT, Bool.not_true, Bool.false_eq_true, if_false, reduceIte] at h
    rcases hE : extractColumnNames c d with e | cols
    · rw [hE] at h; simp at h
    · rw [hE] at h
      simp only [] at h
      cases hEmp : cols.isEmpty
      · simp only [hEmp, Bool.false_eq_true, if_false, reduceIte] at h
        rcases hJ : pyJoin " | " cols with e | hd
        · rw [hJ] at h; simp at h
        · rw [hJ] at h
          simp only [] at h
          rcases hIt : pyIter d with e | rows
          · rw [hIt] at h; simp at h
          · rw [hIt] at h
            simp only [] at h
            rcases hRb : rowsBlock cols rows with e | rb
            · rw [hRb] at h; simp at h
            · rw [hRb] at h
              simp only [] at h
              rcases hL : pyLen d with e | n
              · rw [hL] at h; simp at h
              · rw [hL] at h
                simp only [Except.ok.injEq] at h
                subst h
                right
                simp only [String.append_assoc]
                exact ⟨_, rfl⟩
      · simp only [hEmp, if_true, reduceIte] at h
        rcases hL : pyLen d with e | n
        · rw [hL] at h; simp at h
        · rw [hL] at h
          simp only [Except.ok.injEq] at h
          subst h
          right
          simp only [String.append_assoc]
          exact ⟨_, rfl⟩

theorem sql_tool_outcome (net : NetBehavior) (now : Nat) (cid eid q db : String)
    (lim : Int) (s : S) :
    (∃ r, (execute_sql_query net now cid eid q db lim s).1
        = "Error executing query: " ++ r) ∨
    (∃ r, (execute_sql_query net now cid eid q db lim s).1
        = "Query executed successfully. No results found.\nQuery: " ++ r) ∨
    (∃ r, (execute_sql_query net now cid eid q db lim s).1 = "Query: " ++ r) := by
  unfold execute_sql_query
  simp only []
  by_cases hS : (execute_query net now cid eid (autoLimit q lim) .none db (some lim) s).1.status
      = "error"
  · simp only [hS, if_true, reduceIte]
    left
    simp only [String.append_assoc]
    exact ⟨_, rfl⟩
  · simp only [hS, if_false, reduceIte]
    rcases hF : formatSqlResult (autoLimit q lim)
        (((execute_query net now cid eid (autoLimit q lim) .none db (some lim) s).1).data.getD
          (.list []))
        (((execute_query net now cid eid (autoLimit q lim) .none db (some lim) s).1).columns.getD
          (.list [])) with e | o
    · left
      simp only [String.append_assoc]
      exact ⟨_, rfl⟩
    · rcases formatSqlResult_ok_shape _ _ _ _ hF with ⟨r, hr⟩ | ⟨r, hr⟩
      · exact Or.inr (Or.inl ⟨r, hr⟩)
      · exact Or.inr (Or.inr ⟨r, hr⟩)

theorem agg_tool_outcome (net : NetBehavior) (now : Nat) (cid eid q db : String) (s : S) :
    (∃ r, (execute_aggregation_query net now cid eid q db s).1
        = "Error executing aggregation query: " ++ r) ∨
    (∃ r, (execute_aggregation_query net now cid eid q db s).1
        = "Aggregation query executed successfully. No results found.\nQuery: " ++ r) ∨
    (∃ r, (execute_aggregation_query net now cid eid q db s).1
        = "=== Aggregation Results ===\n" ++ r) := by
  unfold execute_aggregation_query
  simp only []
  by_cases hS : (execute_query net now cid eid q .none db (some 100) s).1.status = "error"
  · simp only [hS, if_true, reduceIte]
    left
    simp only [String.append_assoc]
    exact ⟨_, rfl⟩
  · simp only [hS, if_false, reduceIte]
    rcases hF : formatAggResult q
        (((execute_query net now cid eid q .none db (some 100) s).1).data.getD (.list []))
        (((execute_query net now cid eid q .none db (some 100) s).1).columns.getD (.list []))
        with e | o
    · left
      simp only [String.append_assoc]
      exact ⟨_, rfl⟩
    · rcases formatAggResult_ok_shape _ _ _ _ hF with ⟨r, hr⟩ | ⟨r, hr⟩
      · exact Or.inr (Or.inl ⟨r, hr⟩)
      · exact Or.inr (Or.inr ⟨r, hr⟩)

def wNetChart500 : NetBehavior :=
  { wNetAuthOk with chart := fun _ => .ok ⟨500, "Internal Server Error", .ok .none⟩ }

/-- C7 counterexample: the chart tool's non-201 failure path returns
"Failed to create chart: 500 - Internal Server Error", which does not begin
with "Error"; and a filter dict lacking the `column` key makes the
pre-`try` comprehension at line 128 raise `KeyError`, which escapes the
tool. -/
theorem C7_failure_prefix_cex :
    (create_superset_chart wNetChart500 0 "g" "table" .none .none wAuthedS).1
      = .ok "Failed to create chart: 500 - Internal Server Error" ∧
    strTake "Failed to create chart: 500 - Internal Server Error" 5 ≠ "Error" ∧
    (create_superset_chart wNetChart500 0 "g" "table" .none
      (.list [.dict [("operator", .str "=")]]) wAuthedS).1
      = .error (.err "KeyError: column") :=
  ⟨rfl, by decide, rfl⟩

/-- C7 (amended): the query tools are total and every outcome carries one of
the fixed prefixes — failures begin "Error executing query: " /
"Error executing aggregation query: " — while the chart tool, given a
well-formed `filters` argument, never raises but returns either an
"Error"-prefixed message, the non-"Error" failure text
"Failed to create chart: ...", or the success text. -/
theorem C7_tool_failure_prefixes :
    (∀ (net : NetBehavior) (now : Nat) (genName chart_type : String)
        (chart_name filters : PyVal) (s : S), filterArgOk filters = true →
      ∃ out s', create_superset_chart net now genName chart_type chart_name filters s
          = (.ok out, s') ∧
        ((∃ r, out = "Error" ++ r) ∨ (∃ r, out = "Failed to create chart: " ++ r) ∨
         (∃ r, out = "Chart created successfully!" ++ r))) ∧
    (∀ (net : NetBehavior) (now : Nat) (cid eid q db : String) (lim : Int) (s : S),
      (∃ r, (execute_sql_query net now cid eid q db lim s).1
          = "Error executing query: " ++ r) ∨
      (∃ r, (execute_sql_query net now cid eid q db lim s).1
          = "Query executed successfully. No results found.\nQuery: " ++ r) ∨
      (∃ r, (execute_sql_query net now cid eid q db lim s).1 = "Query: " ++ r)) ∧
    (∀ (net : NetBehavior) (now : Nat) (cid eid q db : String) (s : S),
      (∃ r, (execute_aggregation_query net now cid eid q db s).1
          = "Error executing aggregation query: " ++ r) ∨
      (∃ r, (execute_aggregation_query net now cid eid q db s).1
          = "Aggregation query executed successfully. No results found.\nQuery: " ++ r) ∨
      (∃ r, (execute_aggregation_query net now cid eid q db s).1
          = "=== Aggregation Results ===\n" ++ r)) :=
  ⟨fun net now g ct cn f s hF => chart_tool_outcome net now g ct cn f s hF,
   fun net now cid eid q db lim s => sql_tool_outcome net now cid eid q db lim s,
   fun net now cid eid q db s => agg_tool_outcome net now cid eid q db s⟩

theorem C7_tool_failure_prefixes_witness :
    ∃ out s', create_superset_chart wNetChart500 0 "g" "table" .none
        (.list [.dict [("column", .str "a"), ("value", .int 1)]]) wAuthedS
        = (.ok out, s') ∧
      ((∃ r, out = "Error" ++ r) ∨ (∃ r, out = "Failed to create chart: " ++ r) ∨
       (∃ r, out = "Chart created successfully!" ++ r)) :=
  C7_tool_failure_prefixes.1 wNetChart500 0 "g" "table" .none
    (.list [.dict [("column", .str "a"), ("value", .int 1)]]) wAuthedS (by decide)

end Superset

namespace Superset

def wNetAgg11 : NetBehavior :=
  { wNetSqlOk with
    execute := fun _ => .ok ⟨200, "", .ok (.dict [("status", .str "success"),
      ("data", .list ((List.range 11).map fun i => .dict [("v", .int i)])),
      ("columns", .list [.dict [("column_name", .str "v")]])])⟩ }

/-- C8 counterexample: on the same 11-row result set, the aggregation tool
displays all 11 rows (including the 11th value `10`) with no
"... and N more rows" suffix, while only `execute_sql_query` caps the
display at 10 rows with the suffix. -/
theorem C8_display_cap_cex :
    (execute_aggregation_query wNetAgg11 0 "cid" "eid" "SELECT COUNT(v) FROM t" "PostgreSQL"
      wAuthedS).1
      = "=== Aggregation Results ===\nQuery: SELECT COUNT(v) FROM t\n\nv\n-\n0\n1\n2\n3\n4\n5\n6\n7\n8\n9\n10\n\n**Total result rows:** 11" ∧
    containsSubstr
      "=== Aggregation Results ===\nQuery: SELECT COUNT(v) FROM t\n\nv\n-\n0\n1\n2\n3\n4\n5\n6\n7\n8\n9\n10\n\n**Total result rows:** 11"
      "more rows" = false ∧
    (execute_sql_query wNetAgg11 0 "cid" "eid" "SELECT COUNT(v) FROM t" "PostgreSQL" 100
      wAuthedS).1
      = "Query: SELECT COUNT(v) FROM t LIMIT 100\n\nv\n-\n0\n1\n2\n3\n4\n5\n6\n7\n8\n9\n\n... and 1 more rows\n\nTotal rows: 11" :=
  ⟨rfl, by decide, rfl⟩

/-- C8 (amended): with a nonempty row list and well-formed columns,
`execute_sql_query`'s formatter renders `data[:10]` plus an
"... and N more rows" suffix exactly when more than 10 rows came back and a
trailing total-row-count line, while `execute_aggregation_query`'s
formatter renders every row, with no cap, no suffix, and its own
total-row-count line. -/
theorem C8_display_cap (q : String) (rows cols names : List PyVal) (hd rb10 rball : String)
    (hR : rows ≠ [])
    (hN : extractColumnNames (.list cols) (.list rows) = .ok names)
    (hNe : names ≠ [])
    (hH : pyJoin " | " names = .ok hd)
    (hB10 : rowsBlock names (rows.take 10) = .ok rb10)
    (hBall : rowsBlock names rows = .ok rball) :
    formatSqlResult q (.list rows) (.list cols)
      = .ok ("Query: " ++ q ++ "\n\n" ++ hd ++ "\n"
          ++ String.mk (List.replicate hd.data.length '-') ++ "\n" ++ rb10
          ++ (if 10 < rows.length then
                "\n... and " ++ toString (rows.length - 10) ++ " more rows"
              else "")
          ++ "\n\nTotal rows: " ++ toString rows.length) ∧
    formatAggResult q (.list rows) (.list cols)
      = .ok ("=== Aggregation Results ===\n" ++ "Query: " ++ q ++ "\n\n" ++ hd ++ "\n"
          ++ String.mk (List.replicate hd.data.length '-') ++ "\n" ++ rball
          ++ "\n**Total result rows:** " ++ toString rows.length) := by
  have hRE : rows.isEmpty = false := by
    cases rows
    · exact absurd rfl hR
    · rfl
  have hNE : names.isEmpty = false := by
    cases names
    · exact absurd rfl hNe
    · rfl
  constructor
  · unfold formatSqlResult
    simp only [pyTruthy, hRE, Bool.not_false, Bool.not_true, Bool.false_eq_true, if_false,
      reduceIte, hN, hNE, hH, pySliceTake, pyIter, hB10, pyLen]
  · unfold formatAggResult
    simp only [pyTruthy, hRE, Bool.not_false, Bool.not_true, Bool.false_eq_true, if_false,
      reduceIte, hN, hNE, hH, pyIter, hBall, pyLen]

theorem C8_display_cap_witness :
    formatSqlResult "Q"
        (.list [.dict [("v", .int 0)], .dict [("v", .int 1)], .dict [("v", .int 2)],
          .dict [("v", .int 3)], .dict [("v", .int 4)], .dict [("v", .int 5)],
          .dict [("v", .int 6)], .dict [("v", .int 7)], .dict [("v", .int 8)],
          .dict [("v", .int 9)], .dict [("v", .int 10)]])
        (.list [.dict [("column_name", .str "v")]])
      = .ok "Query: Q\n\nv\n-\n0\n1\n2\n3\n4\n5\n6\n7\n8\n9\n\n... and 1 more rows\n\nTotal rows: 11" ∧
    formatAggResult "Q"
        (.list [.dict [("v", .int 0)], .dict [("v", .int 1)], .dict [("v", .int 2)],
          .dict [("v", .int 3)], .dict [("v", .int 4)], .dict [("v", .int 5)],
          .dict [("v", .int 6)], .dict [("v", .int 7)], .dict [("v", .int 8)],
          .dict [("v", .int 9)], .dict [("v", .int 10)]])
        (.list [.dict [("column_name", .str "v")]])
      = .ok "=== Aggregation Results ===\nQuery: Q\n\nv\n-\n0\n1\n2\n3\n4\n5\n6\n7\n8\n9\n10\n\n**Total result rows:** 11" := by
  have h := C8_display_cap "Q"
    [.dict [("v", .int 0)], .dict [("v", .int 1)], .dict [("v", .int 2)],
      .dict [("v", .int 3)], .dict [("v", .int 4)], .dict [("v", .int 5)],
      .dict [("v", .int 6)], .dict [("v", .int 7)], .dict [("v", .int 8)],
      .dict [("v", .int 9)], .dict [("v", .int 10)]]
    [.dict [("column_name", .str "v")]] [.str "v"] "v"
    "0\n1\n2\n3\n4\n5\n6\n7\n8\n9\n" "0\n1\n2\n3\n4\n5\n6\n7\n8\n9\n10\n"
    (List.cons_ne_nil _ _) rfl (List.cons_ne_nil _ _) rfl rfl rfl
  exact ⟨h.1.trans (congrArg Except.ok (by decide)),
    h.2.trans (congrArg Except.ok (by decide))⟩

end Superset
